import Mathlib

/-!
# BlueshiftEngine components: hinge joint and cylinder collider

A shallow embedding of `ComHingeJoint.cpp` and `ComCylinderCollider.cpp`.

Modelling conventions used throughout:

* A `float` value is a rational number (`ℚ`); infinities and NaN are outside the model.
  In the frame computation of `ComHingeJoint::Start` every product, sum and difference is
  rounded by `Externals.fl`; `F32.round` is binary32 round-to-nearest-even and the identity
  gives exact arithmetic.  Everywhere else products and sums are the exact ones.
* A component is a record of its cached fields.  Methods become functions from the old record
  to the new one.  What a method reads from its entity (`GetEntity()->GetTransform()`, the
  rigid body, `IsActiveInHierarchy()`) is passed in as an explicit record.
* The physics engine, the collider manager and the debug renderer are outside the repository
  slice.  Every call into them is appended to an explicit call log, and the object they manage
  is a record that remembers the last value each call handed it.
* Helpers of the engine that are not part of the slice and cannot be read off their name
  (`DEG2RAD`, `CentiToUnit`, `Angles::ToMat3`, `physicsSystem.CreateConstraint`, ...) are
  fields of the parameter record `Externals`; every theorem holds for all of them.
-/

namespace BE

/-! ## Math library (`Vec2`, `Vec3`, `Mat3`, `Angles`) -/

/-- Modelled from the spec: the engine's `Vec2` (its header is not part of the slice). -/
structure Vec2 where
  x : ℚ
  y : ℚ
  deriving DecidableEq

/-- Modelled from the spec: the engine's `Vec3` (its header is not part of the slice). -/
structure Vec3 where
  x : ℚ
  y : ℚ
  z : ℚ
  deriving DecidableEq

/-- Modelled from the spec: the engine's `Angles` (pitch, yaw, roll in degrees). -/
structure Angles where
  pitch : ℚ
  yaw : ℚ
  roll : ℚ
  deriving DecidableEq

/-- Modelled from the spec: the engine's `Mat3`, stored as its three axis vectors
`mat[0]`, `mat[1]`, `mat[2]` (the columns of the matrix). -/
structure Mat3 where
  m0 : Vec3
  m1 : Vec3
  m2 : Vec3
  deriving DecidableEq

namespace Vec2

/-- Modelled from the spec: `Vec2 * float` of the math library, component-wise scaling. -/
def scale (v : Vec2) (s : ℚ) : Vec2 := ⟨v.x * s, v.y * s⟩

instance : HMul Vec2 ℚ Vec2 := ⟨Vec2.scale⟩

/-- Modelled from the spec: `Vec2::MaxComponent` of the math library, the larger component. -/
def MaxComponent (v : Vec2) : ℚ := if v.x > v.y then v.x else v.y

end Vec2

namespace Vec3

/-- Modelled from the spec: constant `Vec3::origin` of the math library. -/
def origin : Vec3 := ⟨0, 0, 0⟩

/-- Modelled from the spec: `Vec3 + Vec3` of the math library. -/
def add (a b : Vec3) : Vec3 := ⟨a.x + b.x, a.y + b.y, a.z + b.z⟩

/-- Modelled from the spec: `Vec3 - Vec3` of the math library. -/
def sub (a b : Vec3) : Vec3 := ⟨a.x - b.x, a.y - b.y, a.z - b.z⟩

/-- Modelled from the spec: `Vec3 * Vec3` of the math library, the component-wise product. -/
def mul (a b : Vec3) : Vec3 := ⟨a.x * b.x, a.y * b.y, a.z * b.z⟩

/-- Modelled from the spec: `Vec3 * float` of the math library, component-wise scaling. -/
def scale (v : Vec3) (s : ℚ) : Vec3 := ⟨v.x * s, v.y * s, v.z * s⟩

instance : Add Vec3 := ⟨Vec3.add⟩
instance : Sub Vec3 := ⟨Vec3.sub⟩
instance : Mul Vec3 := ⟨Vec3.mul⟩
instance : HMul Vec3 ℚ Vec3 := ⟨Vec3.scale⟩

/-- Modelled from the spec: `Vec3::Dot` of the math library. -/
def Dot (a b : Vec3) : ℚ := a.x * b.x + a.y * b.y + a.z * b.z

/-- Modelled from the spec: `Vec3::DistanceSqr` of the math library, the squared distance. -/
def DistanceSqr (a b : Vec3) : ℚ := (a - b).Dot (a - b)

/-- Modelled from the spec: `Vec3::ToVec2` of the math library, the first two components. -/
def ToVec2 (v : Vec3) : Vec2 := ⟨v.x, v.y⟩

/-- Coordinate `i` of a vector. -/
def coord (v : Vec3) (i : Fin 3) : ℚ :=
  match i with
  | 0 => v.x
  | 1 => v.y
  | 2 => v.z

end Vec3

namespace Mat3

/-- Modelled from the spec: constant `Mat3::identity` of the math library. -/
def identity : Mat3 := ⟨⟨1, 0, 0⟩, ⟨0, 1, 0⟩, ⟨0, 0, 1⟩⟩

/-- Modelled from the spec: indexing `mat[i]` of the math library, the i-th axis vector. -/
def get (m : Mat3) (i : Fin 3) : Vec3 :=
  match i with
  | 0 => m.m0
  | 1 => m.m1
  | 2 => m.m2

/-- Modelled from the spec: `Mat3 * Vec3` of the math library, the matrix-vector product. -/
def mulVec (m : Mat3) (v : Vec3) : Vec3 :=
  ⟨m.m0.x * v.x + m.m1.x * v.y + m.m2.x * v.z,
   m.m0.y * v.x + m.m1.y * v.y + m.m2.y * v.z,
   m.m0.z * v.x + m.m1.z * v.y + m.m2.z * v.z⟩

/-- Modelled from the spec: `Mat3 * Mat3` of the math library, the matrix product. -/
def mul (a b : Mat3) : Mat3 := ⟨a.mulVec b.m0, a.mulVec b.m1, a.mulVec b.m2⟩

/-- Modelled from the spec: `Mat3::TransposedMulVec` of the math library, the product of the
transpose of the receiver with a vector. -/
def TransposedMulVec (m : Mat3) (v : Vec3) : Vec3 := ⟨m.m0.Dot v, m.m1.Dot v, m.m2.Dot v⟩

/-- Modelled from the spec: `Mat3::TransposedMul` of the math library, the product of the
transpose of the receiver with a matrix. -/
def TransposedMul (a b : Mat3) : Mat3 :=
  ⟨a.TransposedMulVec b.m0, a.TransposedMulVec b.m1, a.TransposedMulVec b.m2⟩

instance : HMul Mat3 Vec3 Vec3 := ⟨Mat3.mulVec⟩
instance : Mul Mat3 := ⟨Mat3.mul⟩

/-- The three axis vectors are pairwise orthogonal unit vectors. -/
def IsOrthonormal (m : Mat3) : Prop := m.TransposedMul m = Mat3.identity

instance (m : Mat3) : Decidable m.IsOrthonormal := by
  unfold IsOrthonormal; infer_instance

/-- The same matrix as a Mathlib matrix (axis vectors are columns). -/
def toMatrix (m : Mat3) : Matrix (Fin 3) (Fin 3) ℚ := fun i j => (m.get j).coord i

end Mat3

/-! ## Float rounding -/

namespace F32

/-- Round to the nearest integer, ties to the even neighbour. -/
def roundHalfEven (x : ℚ) : ℤ :=
  if x - ⌊x⌋ < 1 / 2 then ⌊x⌋
  else if 1 / 2 < x - ⌊x⌋ then ⌊x⌋ + 1
  else if ⌊x⌋ % 2 = 0 then ⌊x⌋ else ⌊x⌋ + 1

/-- Exponent of the unit in the last place of binary32 at the magnitude of `q`: 24
significant bits, and the subnormal spacing `2^-149` below `2^-126`. -/
def ulpExp (q : ℚ) : ℤ := max (Int.log 2 |q|) (-126) - 23

/-- Rounding of binary32 (IEEE 754 round-to-nearest, ties-to-even): the multiple of the
unit in the last place nearest to `q`.  Overflow to infinity is not modelled. -/
def round (q : ℚ) : ℚ := roundHalfEven (q / 2 ^ ulpExp q) * 2 ^ ulpExp q

end F32

/-- Modelled from the spec: `Vec3 + Vec3` in float arithmetic, each sum rounded by `fl`. -/
def Vec3.addF (fl : ℚ → ℚ) (a b : Vec3) : Vec3 :=
  ⟨fl (a.x + b.x), fl (a.y + b.y), fl (a.z + b.z)⟩

/-- Modelled from the spec: `Vec3 - Vec3` in float arithmetic, each difference rounded by
`fl`. -/
def Vec3.subF (fl : ℚ → ℚ) (a b : Vec3) : Vec3 :=
  ⟨fl (a.x - b.x), fl (a.y - b.y), fl (a.z - b.z)⟩

/-- Modelled from the spec: `Vec3 * Vec3` in float arithmetic, each product rounded by `fl`. -/
def Vec3.mulF (fl : ℚ → ℚ) (a b : Vec3) : Vec3 :=
  ⟨fl (a.x * b.x), fl (a.y * b.y), fl (a.z * b.z)⟩

/-- Modelled from the spec: `Vec3::Dot` in float arithmetic; every product and every sum is
rounded by `fl`, the sums taken left to right. -/
def Vec3.DotF (fl : ℚ → ℚ) (a b : Vec3) : ℚ :=
  fl (fl (fl (a.x * b.x) + fl (a.y * b.y)) + fl (a.z * b.z))

/-- Modelled from the spec: `Mat3 * Vec3` in float arithmetic; every product and every sum
is rounded by `fl`, the sums taken left to right. -/
def Mat3.mulVecF (fl : ℚ → ℚ) (m : Mat3) (v : Vec3) : Vec3 :=
  ⟨fl (fl (fl (m.m0.x * v.x) + fl (m.m1.x * v.y)) + fl (m.m2.x * v.z)),
   fl (fl (fl (m.m0.y * v.x) + fl (m.m1.y * v.y)) + fl (m.m2.y * v.z)),
   fl (fl (fl (m.m0.z * v.x) + fl (m.m1.z * v.y)) + fl (m.m2.z * v.z))⟩

/-- Modelled from the spec: `Mat3 * Mat3` in float arithmetic. -/
def Mat3.mulF (fl : ℚ → ℚ) (a b : Mat3) : Mat3 :=
  ⟨a.mulVecF fl b.m0, a.mulVecF fl b.m1, a.mulVecF fl b.m2⟩

/-- Modelled from the spec: `Mat3::TransposedMulVec` in float arithmetic. -/
def Mat3.TransposedMulVecF (fl : ℚ → ℚ) (m : Mat3) (v : Vec3) : Vec3 :=
  ⟨m.m0.DotF fl v, m.m1.DotF fl v, m.m2.DotF fl v⟩

/-- Modelled from the spec: `Mat3::TransposedMul` in float arithmetic. -/
def Mat3.TransposedMulF (fl : ℚ → ℚ) (a b : Mat3) : Mat3 :=
  ⟨a.TransposedMulVecF fl b.m0, a.TransposedMulVecF fl b.m1, a.TransposedMulVecF fl b.m2⟩

/-! ## Entity side: transform and rigid bodies -/

/-- Modelled from the spec: the part of `ComTransform` the components read. -/
structure ComTransform where
  origin : Vec3
  axis : Mat3
  scale : Vec3
  deriving DecidableEq

/-- Modelled from the spec: `ComTransform::GetTransform() * v`, the point `v` scaled, then
rotated, then translated. -/
def ComTransform.transformPoint (t : ComTransform) (v : Vec3) : Vec3 :=
  t.origin + t.axis * (t.scale * v)

/-- Modelled from the spec: the part of `PhysRigidBody` the hinge joint reads. -/
structure PhysRigidBody where
  origin : Vec3
  axis : Mat3
  deriving DecidableEq

/-- Modelled from the spec: the part of `ComRigidBody` the hinge joint reads
(`GetBody()` and `GetEntity()->GetTransform()`). -/
structure ComRigidBody where
  body : PhysRigidBody
  transform : ComTransform
  deriving DecidableEq

/-- What a hinge joint reads from its own entity.  `Start` asserts that the entity has a
rigid body, so the record always carries one. -/
structure JointEntity where
  transform : ComTransform
  rigidBody : ComRigidBody
  activeInHierarchy : Bool
  deriving DecidableEq

/-! ## Physics constraint API -/

/-- Modelled from the spec: constraint kinds of `PhysConstraint`. -/
inductive ConstraintType where
  | Generic
  | Point2Point
  | Hinge
  deriving DecidableEq

/-- Modelled from the spec: record `PhysConstraintDesc`, with the fields `Start` fills in. -/
structure PhysConstraintDesc where
  type : ConstraintType
  collision : Bool
  breakImpulse : ℚ
  bodyA : PhysRigidBody
  axisInA : Mat3
  anchorInA : Vec3
  bodyB : Option PhysRigidBody
  axisInB : Mat3
  anchorInB : Vec3
  deriving DecidableEq

/-- Modelled from the spec: the live hinge constraint, a black box of the physics engine,
as the record of what the API calls handed it. -/
structure PhysHingeConstraint where
  anchorInA : Vec3
  axisInA : Mat3
  anchorInB : Vec3
  axisInB : Mat3
  lowerLimit : ℚ
  upperLimit : ℚ
  limitEnabled : Bool
  motorTargetVelocity : ℚ
  maxMotorImpulse : ℚ
  motorEnabled : Bool
  inWorld : Bool
  deriving DecidableEq

/-- One call into the physics API. -/
inductive PhysCall where
  | CreateConstraint (desc : PhysConstraintDesc)
  | SetLimitAngles (lowerAngle upperAngle : ℚ)
  | EnableLimitAngles (enable : Bool)
  | SetMotor (motorTargetVelocity maxMotorImpulse : ℚ)
  | EnableMotor (enable : Bool)
  | AddToWorld
  | SetFrameA (anchorInA : Vec3) (axisInA : Mat3)
  | SetFrameB (anchorInB : Vec3) (axisInB : Mat3)
  | SetAnchorB (anchorInB : Vec3)
  deriving DecidableEq

namespace PhysHingeConstraint

/-- Modelled from the spec: effect of `PhysHingeConstraint::SetLimitAngles`. -/
def SetLimitAngles (h : PhysHingeConstraint) (lo hi : ℚ) : PhysHingeConstraint :=
  { h with lowerLimit := lo, upperLimit := hi }

/-- Modelled from the spec: effect of `PhysHingeConstraint::EnableLimitAngles`. -/
def EnableLimitAngles (h : PhysHingeConstraint) (enable : Bool) : PhysHingeConstraint :=
  { h with limitEnabled := enable }

/-- Modelled from the spec: effect of `PhysHingeConstraint::SetMotor`. -/
def SetMotor (h : PhysHingeConstraint) (v i : ℚ) : PhysHingeConstraint :=
  { h with motorTargetVelocity := v, maxMotorImpulse := i }

/-- Modelled from the spec: effect of `PhysHingeConstraint::EnableMotor`. -/
def EnableMotor (h : PhysHingeConstraint) (enable : Bool) : PhysHingeConstraint :=
  { h with motorEnabled := enable }

/-- Modelled from the spec: effect of `PhysConstraint::AddToWorld`. -/
def AddToWorld (h : PhysHingeConstraint) : PhysHingeConstraint :=
  { h with inWorld := true }

/-- Modelled from the spec: effect of `PhysHingeConstraint::SetFrameA`. -/
def SetFrameA (h : PhysHingeConstraint) (anchor : Vec3) (axis : Mat3) : PhysHingeConstraint :=
  { h with anchorInA := anchor, axisInA := axis }

/-- Modelled from the spec: effect of `PhysHingeConstraint::SetFrameB`. -/
def SetFrameB (h : PhysHingeConstraint) (anchor : Vec3) (axis : Mat3) : PhysHingeConstraint :=
  { h with anchorInB := anchor, axisInB := axis }

/-- Modelled from the spec: effect of `SetAnchorB`, which `SetConnectedAnchor` reaches through
a cast of the hinge constraint to `PhysP2PConstraint`; it is taken to move the B anchor and
nothing else. -/
def SetAnchorB (h : PhysHingeConstraint) (anchor : Vec3) : PhysHingeConstraint :=
  { h with anchorInB := anchor }

end PhysHingeConstraint

/-- Helpers of the engine that lie outside the slice, and the rounding `fl` of the float
arithmetic in `Start`; theorems quantify over all of them. -/
structure Externals where
  fl : ℚ → ℚ
  DEG2RAD : ℚ → ℚ
  CentiToUnit : ℚ → ℚ
  ToMat3 : Angles → Mat3
  ToAngles : Mat3 → Angles
  FixDegeneracies : Mat3 → Mat3
  newDesc : PhysConstraintDesc
  CreateConstraint : PhysConstraintDesc → PhysHingeConstraint

/-! ## `ComHingeJoint` -/

/-- Cached state of a hinge joint: the `ComJoint` members it uses, its own members, and the
log of the calls it has made into the physics API. -/
structure ComHingeJoint where
  connectedBody : Option ComRigidBody
  collisionEnabled : Bool
  breakImpulse : ℚ
  constraint : Option PhysHingeConstraint
  localAnchor : Vec3
  localAxis : Mat3
  connectedAnchor : Vec3
  connectedAxis : Mat3
  enableLimitAngles : Bool
  minimumAngle : ℚ
  maximumAngle : ℚ
  motorTargetVelocity : ℚ
  maxMotorImpulse : ℚ
  physCalls : List PhysCall
  deriving DecidableEq

namespace ComHingeJoint

/-- Lines 61-85 of `Start`: fill in the constraint description and cache the B frame.  The
vector and matrix arithmetic is float arithmetic, rounded by `X.fl`. -/
def StartDesc (X : Externals) (e : JointEntity) (c : ComHingeJoint) :
    PhysConstraintDesc × ComHingeJoint :=
  let transform := e.transform
  let rigidBody := e.rigidBody
  let desc : PhysConstraintDesc :=
    { X.newDesc with
      type := ConstraintType.Hinge
      collision := c.collisionEnabled
      breakImpulse := c.breakImpulse
      bodyA := rigidBody.body
      axisInA := c.localAxis
      anchorInA := Vec3.mulF X.fl transform.scale c.localAnchor }
  match c.connectedBody with
  | some connectedBody =>
    let worldAxis : Mat3 := Mat3.mulF X.fl desc.bodyA.axis c.localAxis
    let worldAnchor : Vec3 :=
      Vec3.addF X.fl desc.bodyA.origin (Mat3.mulVecF X.fl desc.bodyA.axis desc.anchorInA)
    let desc : PhysConstraintDesc :=
      { desc with
        bodyB := some connectedBody.body
        axisInB := Mat3.TransposedMulF X.fl connectedBody.body.axis worldAxis
        anchorInB :=
          Mat3.TransposedMulVecF X.fl connectedBody.body.axis
            (Vec3.subF X.fl worldAnchor connectedBody.body.origin) }
    (desc, { c with connectedAxis := desc.axisInB, connectedAnchor := desc.anchorInB })
  | none =>
    ({ desc with bodyB := none },
     { c with connectedAxis := Mat3.identity, connectedAnchor := Vec3.origin })

/-- Lines 95-99 of `Start`: apply the motor to the new constraint. -/
def StartMotor (X : Externals) (c : ComHingeJoint) (h : PhysHingeConstraint) :
    PhysHingeConstraint × List PhysCall :=
  if c.motorTargetVelocity ≠ 0 then
    (((h.SetMotor (X.DEG2RAD c.motorTargetVelocity) c.maxMotorImpulse).EnableMotor true),
     [PhysCall.SetMotor (X.DEG2RAD c.motorTargetVelocity) c.maxMotorImpulse,
      PhysCall.EnableMotor true])
  else (h, [])

/-- Lines 101-103 of `Start`: add the constraint to the physics world. -/
def StartAddToWorld (e : JointEntity) (h : PhysHingeConstraint) :
    PhysHingeConstraint × List PhysCall :=
  if e.activeInHierarchy then (h.AddToWorld, [PhysCall.AddToWorld]) else (h, [])

/-- Method `ComHingeJoint::Start`.  The base call `ComJoint::Start` is outside the slice; the
record passed in is the component as that call leaves it. -/
def Start (X : Externals) (e : JointEntity) (c : ComHingeJoint) : ComHingeJoint :=
  let dc := StartDesc X e c
  let desc := dc.1
  let c := dc.2
  let h := X.CreateConstraint desc
  let h := h.SetLimitAngles (X.DEG2RAD c.minimumAngle) (X.DEG2RAD c.maximumAngle)
  let h := h.EnableLimitAngles c.enableLimitAngles
  let m := StartMotor X c h
  let w := StartAddToWorld e m.1
  { c with
    constraint := some w.1
    physCalls := c.physCalls ++
      PhysCall.CreateConstraint desc ::
      PhysCall.SetLimitAngles (X.DEG2RAD c.minimumAngle) (X.DEG2RAD c.maximumAngle) ::
      PhysCall.EnableLimitAngles c.enableLimitAngles :: (m.2 ++ w.2) }

/-- Getter `GetLocalAnchor`. -/
def GetLocalAnchor (c : ComHingeJoint) : Vec3 := c.localAnchor

/-- Setter `SetLocalAnchor`. -/
def SetLocalAnchor (anchor : Vec3) (c : ComHingeJoint) : ComHingeJoint :=
  let c := { c with localAnchor := anchor }
  match c.constraint with
  | some h =>
    { c with
      constraint := some (h.SetFrameA anchor c.localAxis)
      physCalls := c.physCalls ++ [PhysCall.SetFrameA anchor c.localAxis] }
  | none => c

/-- Getter `GetLocalAngles`. -/
def GetLocalAngles (X : Externals) (c : ComHingeJoint) : Angles := X.ToAngles c.localAxis

/-- Setter `SetLocalAngles`. -/
def SetLocalAngles (X : Externals) (angles : Angles) (c : ComHingeJoint) : ComHingeJoint :=
  let c := { c with localAxis := X.FixDegeneracies (X.ToMat3 angles) }
  match c.constraint with
  | some h =>
    { c with
      constraint := some (h.SetFrameA c.localAnchor c.localAxis)
      physCalls := c.physCalls ++ [PhysCall.SetFrameA c.localAnchor c.localAxis] }
  | none => c

/-- Getter `GetConnectedAnchor`. -/
def GetConnectedAnchor (c : ComHingeJoint) : Vec3 := c.connectedAnchor

/-- Setter `SetConnectedAnchor`. -/
def SetConnectedAnchor (anchor : Vec3) (c : ComHingeJoint) : ComHingeJoint :=
  let c := { c with connectedAnchor := anchor }
  match c.constraint with
  | some h =>
    { c with
      constraint := some (h.SetAnchorB anchor)
      physCalls := c.physCalls ++ [PhysCall.SetAnchorB anchor] }
  | none => c

/-- Getter `GetConnectedAngles`. -/
def GetConnectedAngles (X : Externals) (c : ComHingeJoint) : Angles := X.ToAngles c.connectedAxis

/-- Setter `SetConnectedAngles`. -/
def SetConnectedAngles (X : Externals) (angles : Angles) (c : ComHingeJoint) : ComHingeJoint :=
  let c := { c with connectedAxis := X.FixDegeneracies (X.ToMat3 angles) }
  match c.constraint with
  | some h =>
    { c with
      constraint := some (h.SetFrameB c.connectedAnchor c.connectedAxis)
      physCalls := c.physCalls ++ [PhysCall.SetFrameB c.connectedAnchor c.connectedAxis] }
  | none => c

/-- Getter `GetEnableLimitAngles`. -/
def GetEnableLimitAngles (c : ComHingeJoint) : Bool := c.enableLimitAngles

/-- Setter `SetEnableLimitAngles`. -/
def SetEnableLimitAngles (enable : Bool) (c : ComHingeJoint) : ComHingeJoint :=
  let c := { c with enableLimitAngles := enable }
  match c.constraint with
  | some h =>
    { c with
      constraint := some (h.EnableLimitAngles c.enableLimitAngles)
      physCalls := c.physCalls ++ [PhysCall.EnableLimitAngles c.enableLimitAngles] }
  | none => c

/-- Getter `GetMinimumAngle`. -/
def GetMinimumAngle (c : ComHingeJoint) : ℚ := c.minimumAngle

/-- Setter `SetMinimumAngle`. -/
def SetMinimumAngle (X : Externals) (minimumAngle : ℚ) (c : ComHingeJoint) : ComHingeJoint :=
  let c := { c with minimumAngle := minimumAngle }
  match c.constraint with
  | some h =>
    { c with
      constraint := some (h.SetLimitAngles (X.DEG2RAD minimumAngle) (X.DEG2RAD c.maximumAngle))
      physCalls := c.physCalls ++
        [PhysCall.SetLimitAngles (X.DEG2RAD minimumAngle) (X.DEG2RAD c.maximumAngle)] }
  | none => c

/-- Getter `GetMaximumAngle`. -/
def GetMaximumAngle (c : ComHingeJoint) : ℚ := c.maximumAngle

/-- Setter `SetMaximumAngle`. -/
def SetMaximumAngle (X : Externals) (maximumAngle : ℚ) (c : ComHingeJoint) : ComHingeJoint :=
  let c := { c with maximumAngle := maximumAngle }
  match c.constraint with
  | some h =>
    { c with
      constraint := some (h.SetLimitAngles (X.DEG2RAD c.minimumAngle) (X.DEG2RAD maximumAngle))
      physCalls := c.physCalls ++
        [PhysCall.SetLimitAngles (X.DEG2RAD c.minimumAngle) (X.DEG2RAD maximumAngle)] }
  | none => c

/-- Getter `GetMotorTargetVelocity`. -/
def GetMotorTargetVelocity (c : ComHingeJoint) : ℚ := c.motorTargetVelocity

/-- Setter `SetMotorTargetVelocity`. -/
def SetMotorTargetVelocity (X : Externals) (motorTargetVelocity : ℚ) (c : ComHingeJoint) :
    ComHingeJoint :=
  let c := { c with motorTargetVelocity := motorTargetVelocity }
  match c.constraint with
  | some h =>
    { c with
      constraint := some
        ((h.SetMotor (X.DEG2RAD motorTargetVelocity) c.maxMotorImpulse).EnableMotor
          (if motorTargetVelocity ≠ 0 then true else false))
      physCalls := c.physCalls ++
        [PhysCall.SetMotor (X.DEG2RAD motorTargetVelocity) c.maxMotorImpulse,
         PhysCall.EnableMotor (if motorTargetVelocity ≠ 0 then true else false)] }
  | none => c

/-- Getter `GetMaxMotorImpulse`. -/
def GetMaxMotorImpulse (c : ComHingeJoint) : ℚ := c.maxMotorImpulse

/-- Setter `SetMaxMotorImpulse`. -/
def SetMaxMotorImpulse (X : Externals) (maxMotorImpulse : ℚ) (c : ComHingeJoint) :
    ComHingeJoint :=
  let c := { c with maxMotorImpulse := maxMotorImpulse }
  match c.constraint with
  | some h =>
    { c with
      constraint := some
        ((h.SetMotor (X.DEG2RAD c.motorTargetVelocity) maxMotorImpulse).EnableMotor
          (if c.motorTargetVelocity ≠ 0 then true else false))
      physCalls := c.physCalls ++
        [PhysCall.SetMotor (X.DEG2RAD c.motorTargetVelocity) maxMotorImpulse,
         PhysCall.EnableMotor (if c.motorTargetVelocity ≠ 0 then true else false)] }
  | none => c

end ComHingeJoint

/-! ## Debug rendering -/

/-- Modelled from the spec: the named colours of `Color4` used by the gizmos, kept symbolic. -/
inductive Color4 where
  | yellow
  | red
  | orange
  | zero
  | scaled (c : Color4) (s : ℚ)
  deriving DecidableEq

/-- One call into the debug renderer (`RenderWorld`). -/
inductive DebugDraw where
  | SetDebugColor (lineColor fillColor : Color4)
  | DebugArc (origin right up : Vec3) (radius angle1 angle2 : ℚ) (drawSector : Bool)
  | DebugLine (start finish : Vec3) (lineWidth : ℚ)
  | DebugArrow (start finish : Vec3) (coneSize coneRadius : ℚ)
  | DebugCylinderSimple (center : Vec3) (axis : Mat3) (height radius lineWidth : ℚ)
      (depthTest : Bool)
  deriving DecidableEq

/-- Modelled from the spec: the part of `SceneView::Parms` the gizmos read. -/
structure SceneViewParms where
  origin : Vec3
  deriving DecidableEq

/-- Method `ComHingeJoint::DrawGizmos`: the calls it makes into the debug renderer. -/
def ComHingeJoint.DrawGizmos (X : Externals) (e : JointEntity) (sceneView : SceneViewParms)
    (_selected : Bool) (c : ComHingeJoint) : List DebugDraw :=
  let transform := e.transform
  if transform.origin.DistanceSqr sceneView.origin < 20000 * 20000 then
    let worldOrigin : Vec3 := transform.transformPoint c.localAnchor
    let worldAxis : Mat3 := transform.axis * c.localAxis
    let constraintAxis : Mat3 :=
      match c.connectedBody with
      | some connectedBody => connectedBody.transform.axis
      | none => Mat3.identity
    (if c.enableLimitAngles then
      [DebugDraw.SetDebugColor Color4.yellow (Color4.scaled Color4.yellow (1 / 2)),
       DebugDraw.DebugArc worldOrigin (constraintAxis.get 0) (constraintAxis.get 1)
         (X.CentiToUnit (5 / 2)) c.minimumAngle c.maximumAngle true,
       DebugDraw.SetDebugColor Color4.red Color4.zero,
       DebugDraw.DebugLine worldOrigin (worldOrigin + worldAxis.get 0 * X.CentiToUnit (5 / 2)) 1]
     else []) ++
    [DebugDraw.SetDebugColor Color4.red Color4.red,
     DebugDraw.DebugArrow (worldOrigin - worldAxis.get 2 * X.CentiToUnit 5)
       (worldOrigin + worldAxis.get 2 * X.CentiToUnit 5) (X.CentiToUnit 3)
       (X.CentiToUnit (3 / 4))]
  else []

/-! ## Collider manager -/

/-- Shape handed to `Collider::CreateCylinder`. -/
structure CylinderShape where
  center : Vec3
  radius : ℚ
  height : ℚ
  deriving DecidableEq

/-- Modelled from the spec: a collider object of the physics subsystem, with the identity the
manager gave it and the cylinder it was last built as. -/
structure Collider where
  id : Nat
  cylinder : Option CylinderShape
  deriving DecidableEq

/-- Modelled from the spec: effect of `Collider::CreateCylinder`. -/
def Collider.CreateCylinder (col : Collider) (center : Vec3) (radius height : ℚ) : Collider :=
  { col with cylinder := some ⟨center, radius, height⟩ }

/-- One allocation or release seen by the collider manager. -/
inductive ColliderEvent where
  | Alloc (id : Nat)
  | Release (id : Nat)
  deriving DecidableEq

/-- Modelled from the spec: the global `colliderManager`, as the next fresh identity and the
log of allocations and releases. -/
structure ColliderManager where
  nextId : Nat
  events : List ColliderEvent
  deriving DecidableEq

/-- Modelled from the spec: effect of `ColliderManager::AllocUnnamedCollider`, which hands out
a fresh, empty collider. -/
def ColliderManager.AllocUnnamedCollider (m : ColliderManager) : Collider × ColliderManager :=
  (⟨m.nextId, none⟩,
   { nextId := m.nextId + 1, events := m.events ++ [ColliderEvent.Alloc m.nextId] })

/-- Modelled from the spec: effect of `ColliderManager::ReleaseCollider`. -/
def ColliderManager.ReleaseCollider (m : ColliderManager) (col : Collider) : ColliderManager :=
  { m with events := m.events ++ [ColliderEvent.Release col.id] }

/-! ## `ComCylinderCollider` -/

/-- Cached state of a cylinder collider component: the `Component` / `ComCollider` members it
uses, its own members, and the collider manager it talks to. -/
structure ComCylinderCollider where
  initialized : Bool
  collider : Option Collider
  center : Vec3
  radius : ℚ
  height : ℚ
  colliderManager : ColliderManager
  deriving DecidableEq

namespace ComCylinderCollider

/-- Modelled from the spec: query `Component::IsInitialized`. -/
def IsInitialized (c : ComCylinderCollider) : Bool := c.initialized

/-- Method `ComCylinderCollider::CreateCollider`. -/
def CreateCollider (transform : ComTransform) (c : ComCylinderCollider) : ComCylinderCollider :=
  let manager : ColliderManager :=
    match c.collider with
    | some collider => c.colliderManager.ReleaseCollider collider
    | none => c.colliderManager
  let scaledCenter : Vec3 := transform.scale * c.center
  let scaledRadius : ℚ := (transform.scale.ToVec2 * c.radius).MaxComponent
  let scaledHeight : ℚ := transform.scale.z * c.height
  let alloc := manager.AllocUnnamedCollider
  { c with
    collider := some (alloc.1.CreateCylinder scaledCenter scaledRadius scaledHeight)
    colliderManager := alloc.2 }

/-- Setter `SetCenter`. -/
def SetCenter (transform : ComTransform) (center : Vec3) (c : ComCylinderCollider) :
    ComCylinderCollider :=
  let c := { c with center := center }
  if c.IsInitialized then CreateCollider transform c else c

/-- Setter `SetRadius`. -/
def SetRadius (transform : ComTransform) (radius : ℚ) (c : ComCylinderCollider) :
    ComCylinderCollider :=
  let c := { c with radius := radius }
  if c.IsInitialized then CreateCollider transform c else c

/-- Setter `SetHeight`. -/
def SetHeight (transform : ComTransform) (height : ℚ) (c : ComCylinderCollider) :
    ComCylinderCollider :=
  let c := { c with height := height }
  if c.IsInitialized then CreateCollider transform c else c

/-- Method `ComCylinderCollider::RayIntersection`: the returned flag, the `lastScale`
in/out parameter after the call, and the component after the call. -/
def RayIntersection (c : ComCylinderCollider) (_start _dir : Vec3) (_backFaceCull : Bool)
    (lastScale : ℚ) : Bool × ℚ × ComCylinderCollider :=
  (false, lastScale, c)

/-- Method `ComCylinderCollider::DrawGizmos`: the calls it makes into the debug renderer. -/
def DrawGizmos (transform : ComTransform) (sceneView : SceneViewParms) (selected : Bool)
    (c : ComCylinderCollider) : List DebugDraw :=
  if selected then
    if transform.origin.DistanceSqr sceneView.origin < 20000 * 20000 then
      let scaledCenter : Vec3 := transform.scale * c.center
      let scaledRadius : ℚ := (transform.scale.ToVec2 * c.radius).MaxComponent
      let scaledHeight : ℚ := transform.scale.z * c.height
      let worldCenter : Vec3 := transform.transformPoint scaledCenter
      [DebugDraw.SetDebugColor Color4.orange Color4.zero,
       DebugDraw.DebugCylinderSimple worldCenter transform.axis scaledHeight
         (scaledRadius + 1 / 4) (5 / 4) true]
    else []
  else []

end ComCylinderCollider

/-! ## Sequences of setter calls -/

/-- One call of a setter that `ComHingeJoint.cpp` defines. -/
inductive HingeSetter where
  | SetLocalAnchor (anchor : Vec3)
  | SetLocalAngles (angles : Angles)
  | SetConnectedAnchor (anchor : Vec3)
  | SetConnectedAngles (angles : Angles)
  | SetEnableLimitAngles (enable : Bool)
  | SetMinimumAngle (minimumAngle : ℚ)
  | SetMaximumAngle (maximumAngle : ℚ)
  | SetMotorTargetVelocity (motorTargetVelocity : ℚ)
  | SetMaxMotorImpulse (maxMotorImpulse : ℚ)
  deriving DecidableEq

/-- Run one setter call. -/
def ComHingeJoint.call (X : Externals) (c : ComHingeJoint) : HingeSetter → ComHingeJoint
  | HingeSetter.SetLocalAnchor anchor => c.SetLocalAnchor anchor
  | HingeSetter.SetLocalAngles angles => c.SetLocalAngles X angles
  | HingeSetter.SetConnectedAnchor anchor => c.SetConnectedAnchor anchor
  | HingeSetter.SetConnectedAngles angles => c.SetConnectedAngles X angles
  | HingeSetter.SetEnableLimitAngles enable => c.SetEnableLimitAngles enable
  | HingeSetter.SetMinimumAngle a => c.SetMinimumAngle X a
  | HingeSetter.SetMaximumAngle a => c.SetMaximumAngle X a
  | HingeSetter.SetMotorTargetVelocity v => c.SetMotorTargetVelocity X v
  | HingeSetter.SetMaxMotorImpulse i => c.SetMaxMotorImpulse X i

/-- Run a sequence of setter calls, first call first. -/
def ComHingeJoint.callAll (X : Externals) (c : ComHingeJoint) (ops : List HingeSetter) :
    ComHingeJoint :=
  ops.foldl (ComHingeJoint.call X) c

/-- The live constraint mirrors the cached limit fields. -/
def ComHingeJoint.LimitsSynced (X : Externals) (c : ComHingeJoint) : Prop :=
  ∃ h, c.constraint = some h ∧
    h.lowerLimit = X.DEG2RAD c.minimumAngle ∧
    h.upperLimit = X.DEG2RAD c.maximumAngle ∧
    h.limitEnabled = c.enableLimitAngles

/-- The live constraint mirrors the cached motor fields. -/
def ComHingeJoint.MotorSynced (X : Externals) (c : ComHingeJoint) : Prop :=
  ∃ h, c.constraint = some h ∧
    (h.motorEnabled = true ↔ c.motorTargetVelocity ≠ 0) ∧
    (h.motorEnabled = true →
      h.motorTargetVelocity = X.DEG2RAD c.motorTargetVelocity ∧
      h.maxMotorImpulse = c.maxMotorImpulse)

/-- One call of a method of `ComCylinderCollider.cpp` that touches the collider, together
with the entity transform at the time of the call. -/
inductive ColliderOp where
  | CreateCollider (transform : ComTransform)
  | SetCenter (transform : ComTransform) (center : Vec3)
  | SetRadius (transform : ComTransform) (radius : ℚ)
  | SetHeight (transform : ComTransform) (height : ℚ)
  deriving DecidableEq

/-- Run one collider call. -/
def ComCylinderCollider.call (c : ComCylinderCollider) : ColliderOp → ComCylinderCollider
  | ColliderOp.CreateCollider t => c.CreateCollider t
  | ColliderOp.SetCenter t center => c.SetCenter t center
  | ColliderOp.SetRadius t radius => c.SetRadius t radius
  | ColliderOp.SetHeight t height => c.SetHeight t height

/-- Run a sequence of collider calls, first call first. -/
def ComCylinderCollider.callAll (c : ComCylinderCollider) (ops : List ColliderOp) :
    ComCylinderCollider :=
  ops.foldl ComCylinderCollider.call c

/-- Number of allocations in a manager log. -/
def allocCount (es : List ColliderEvent) : Nat :=
  es.countP fun e => match e with
    | ColliderEvent.Alloc _ => true
    | ColliderEvent.Release _ => false

/-- Number of releases in a manager log. -/
def releaseCount (es : List ColliderEvent) : Nat :=
  es.countP fun e => match e with
    | ColliderEvent.Alloc _ => false
    | ColliderEvent.Release _ => true

/-- Replay one manager event on the list of live collider identities; `none` once a release
names a collider that is not live (never allocated, or already released). -/
def replayEvent (live : Option (List Nat)) (e : ColliderEvent) : Option (List Nat) :=
  match live, e with
  | none, _ => none
  | some l, ColliderEvent.Alloc i => some (i :: l)
  | some l, ColliderEvent.Release i => if i ∈ l then some (l.erase i) else none

/-- Live collider identities after a manager log, starting with none live. -/
def liveColliders (es : List ColliderEvent) : Option (List Nat) :=
  es.foldl replayEvent (some [])

/-- Identities of the colliders a component holds (at most one). -/
def ComCylinderCollider.held (c : ComCylinderCollider) : List Nat :=
  match c.collider with
  | some col => [col.id]
  | none => []

/-- Recogniser of `DebugArc` calls. -/
def DebugDraw.isArc : DebugDraw → Bool
  | DebugDraw.DebugArc _ _ _ _ _ _ _ => true
  | _ => false

/-- Recogniser of `DebugLine` calls. -/
def DebugDraw.isLine : DebugDraw → Bool
  | DebugDraw.DebugLine _ _ _ => true
  | _ => false

/-- Recogniser of `DebugArrow` calls. -/
def DebugDraw.isArrow : DebugDraw → Bool
  | DebugDraw.DebugArrow _ _ _ _ => true
  | _ => false

/-- Recogniser of `DebugCylinderSimple` calls. -/
def DebugDraw.isCylinder : DebugDraw → Bool
  | DebugDraw.DebugCylinderSimple _ _ _ _ _ _ => true
  | _ => false

/-- The events the manager has logged since `base` account for exactly the colliders the
component holds. -/
def ComCylinderCollider.BalancedSince (base : List ColliderEvent) (c : ComCylinderCollider) :
    Prop :=
  ∃ new, c.colliderManager.events = base ++ new ∧
    liveColliders new = some c.held ∧
    allocCount new = releaseCount new + c.held.length

/-! ## Concrete inputs used to exercise the theorems -/

/-- A concrete choice of the external helpers: binary32 rounding, and `DEG2RAD` with the
approximation 355/113. -/
def sampleExternals : Externals where
  fl := F32.round
  DEG2RAD := fun a => F32.round (a * (355 / (113 * 180)))
  CentiToUnit := fun c => c
  ToMat3 := fun _ => Mat3.identity
  ToAngles := fun _ => ⟨0, 0, 0⟩
  FixDegeneracies := fun m => m
  newDesc := ⟨ConstraintType.Generic, false, 0, ⟨Vec3.origin, Mat3.identity⟩, Mat3.identity,
    Vec3.origin, none, Mat3.identity, Vec3.origin⟩
  CreateConstraint := fun d =>
    ⟨d.anchorInA, d.axisInA, d.anchorInB, d.axisInB, 0, 0, false, 0, 0, false, false⟩

/-- Rotation by a quarter turn about the z axis. -/
def quarterTurn : Mat3 := ⟨⟨0, 1, 0⟩, ⟨-1, 0, 0⟩, ⟨0, 0, 1⟩⟩

/-- A transform at (10, 0, 0), rotated a quarter turn, with scale (2, 3, 4). -/
def sampleTransform : ComTransform := ⟨⟨10, 0, 0⟩, quarterTurn, ⟨2, 3, 4⟩⟩

/-- A rigid body at (10, 0, 0), rotated a quarter turn. -/
def sampleBodyA : ComRigidBody := ⟨⟨⟨10, 0, 0⟩, quarterTurn⟩, sampleTransform⟩

/-- The rotation that sends the x, y, z axes to the z, x, y axes. -/
def cycleAxes : Mat3 := ⟨⟨0, 0, 1⟩, ⟨1, 0, 0⟩, ⟨0, 1, 0⟩⟩

/-- A second rigid body, at (0, 5, 0), with axes (0, 0, 1), (1, 0, 0), (0, 1, 0). -/
def sampleBodyB : ComRigidBody :=
  ⟨⟨⟨0, 5, 0⟩, cycleAxes⟩, ⟨⟨0, 5, 0⟩, cycleAxes, ⟨1, 1, 1⟩⟩⟩

/-- An active entity carrying `sampleBodyA`. -/
def sampleEntity : JointEntity := ⟨sampleTransform, sampleBodyA, true⟩

/-- A hinge joint before `Start`, connected to `sampleBodyB`. -/
def sampleJoint : ComHingeJoint where
  connectedBody := some sampleBodyB
  collisionEnabled := false
  breakImpulse := 0
  constraint := none
  localAnchor := ⟨1, 2, 3⟩
  localAxis := Mat3.identity
  connectedAnchor := Vec3.origin
  connectedAxis := Mat3.identity
  enableLimitAngles := true
  minimumAngle := -90
  maximumAngle := 45
  motorTargetVelocity := 30
  maxMotorImpulse := 7
  physCalls := []

/-- An active entity at the origin, unrotated and unscaled. -/
def originEntity : JointEntity :=
  ⟨⟨Vec3.origin, Mat3.identity, ⟨1, 1, 1⟩⟩,
   ⟨⟨Vec3.origin, Mat3.identity⟩, ⟨Vec3.origin, Mat3.identity, ⟨1, 1, 1⟩⟩⟩, true⟩

/-- An unrotated rigid body at (1000, 0, 0). -/
def farBody : ComRigidBody :=
  ⟨⟨⟨1000, 0, 0⟩, Mat3.identity⟩, ⟨⟨1000, 0, 0⟩, Mat3.identity, ⟨1, 1, 1⟩⟩⟩

/-- The binary32 value nearest to one tenth (`0.1f`). -/
def tenth : ℚ := 13421773 / 134217728

/-- A hinge joint before `Start`, connected to `farBody`, with local anchor (0.1f, 0, 0). -/
def tenthJoint : ComHingeJoint :=
  { sampleJoint with connectedBody := some farBody, localAnchor := ⟨tenth, 0, 0⟩ }

/-- A sequence of setter calls touching every setter. -/
def sampleSetters : List HingeSetter :=
  [HingeSetter.SetMotorTargetVelocity 0, HingeSetter.SetLocalAnchor ⟨1, 1, 1⟩,
   HingeSetter.SetMaxMotorImpulse 5, HingeSetter.SetMinimumAngle (-30),
   HingeSetter.SetConnectedAnchor ⟨0, 0, 1⟩, HingeSetter.SetEnableLimitAngles false,
   HingeSetter.SetMotorTargetVelocity 90, HingeSetter.SetLocalAngles ⟨0, 90, 0⟩,
   HingeSetter.SetMaximumAngle 60, HingeSetter.SetConnectedAngles ⟨0, 0, 0⟩]

/-- A cylinder collider component that is not initialized and holds no collider. -/
def sampleCollider : ComCylinderCollider := ⟨false, none, ⟨1, 1, 1⟩, 50, 100, ⟨0, []⟩⟩

/-- A cylinder collider component that is initialized and holds no collider yet. -/
def sampleColliderInit : ComCylinderCollider := ⟨true, none, ⟨1, 1, 1⟩, 50, 100, ⟨0, []⟩⟩

/-- A sequence of collider calls touching every method. -/
def sampleColliderOps : List ColliderOp :=
  [ColliderOp.SetRadius sampleTransform 10, ColliderOp.CreateCollider sampleTransform,
   ColliderOp.SetCenter sampleTransform ⟨0, 0, 1⟩, ColliderOp.SetHeight sampleTransform 20,
   ColliderOp.CreateCollider sampleTransform]

/-! ## Lemmas on the math library -/

theorem Mat3.toMatrix_transposedMul (a b : Mat3) :
    (a.TransposedMul b).toMatrix = a.toMatrix.transpose * b.toMatrix := by
  ext i j
  fin_cases i <;> fin_cases j <;>
    simp [Mat3.toMatrix, Mat3.TransposedMul, Mat3.TransposedMulVec, Vec3.Dot, Mat3.get,
      Vec3.coord, Matrix.mul_apply, Fin.sum_univ_three, Matrix.transpose_apply]

theorem Mat3.toMatrix_identity : Mat3.identity.toMatrix = 1 := by
  ext i j
  fin_cases i <;> fin_cases j <;> simp [Mat3.toMatrix, Mat3.identity, Mat3.get, Vec3.coord]

/-- For an orthonormal matrix the rows are orthonormal too. -/
theorem Mat3.rows_of_isOrthonormal (m : Mat3) (h : m.IsOrthonormal) :
    m.toMatrix * m.toMatrix.transpose = 1 := by
  have h1 : m.toMatrix.transpose * m.toMatrix = 1 := by
    rw [← Mat3.toMatrix_transposedMul, h, Mat3.toMatrix_identity]
  exact (Matrix.mul_eq_one_comm).mp h1

/-- Multiplying by an orthonormal matrix undoes `TransposedMulVec`. -/
theorem Mat3.mulVec_transposedMulVec (m : Mat3) (h : m.IsOrthonormal) (v : Vec3) :
    m * m.TransposedMulVec v = v := by
  have hr := Mat3.rows_of_isOrthonormal m h
  have e00 := congrFun (congrFun hr 0) 0
  have e01 := congrFun (congrFun hr 0) 1
  have e02 := congrFun (congrFun hr 0) 2
  have e11 := congrFun (congrFun hr 1) 1
  have e12 := congrFun (congrFun hr 1) 2
  have e22 := congrFun (congrFun hr 2) 2
  simp [Mat3.toMatrix, Mat3.get, Vec3.coord, Matrix.mul_apply, Fin.sum_univ_three,
    Matrix.transpose_apply] at e00 e01 e02 e11 e12 e22
  obtain ⟨⟨a, b, c⟩, ⟨d, e, f⟩, ⟨g, k, l⟩⟩ := m
  obtain ⟨x, y, z⟩ := v
  simp only at e00 e01 e02 e11 e12 e22
  show Mat3.mulVec _ _ = _
  simp only [Mat3.mulVec, Mat3.TransposedMulVec, Vec3.Dot, Vec3.mk.injEq]
  refine ⟨?_, ?_, ?_⟩
  · linear_combination x * e00 + y * e01 + z * e02
  · linear_combination x * e01 + y * e11 + z * e12
  · linear_combination x * e02 + y * e12 + z * e22

/-- Multiplying by an orthonormal matrix undoes `TransposedMul`. -/
theorem Mat3.mul_transposedMul (m : Mat3) (h : m.IsOrthonormal) (a : Mat3) :
    m * m.TransposedMul a = a := by
  have h0 := Mat3.mulVec_transposedMulVec m h a.m0
  have h1 := Mat3.mulVec_transposedMulVec m h a.m1
  have h2 := Mat3.mulVec_transposedMulVec m h a.m2
  obtain ⟨a0, a1, a2⟩ := a
  show Mat3.mul _ _ = _
  simp only [Mat3.mul, Mat3.TransposedMul, Mat3.mk.injEq]
  exact ⟨h0, h1, h2⟩

theorem Vec3.add_sub_cancel_left (a b : Vec3) : a + (b - a) = b := by
  obtain ⟨a1, a2, a3⟩ := a
  obtain ⟨b1, b2, b3⟩ := b
  show Vec3.add _ (Vec3.sub _ _) = _
  simp [Vec3.add, Vec3.sub]

/-! ## Binary32 rounding -/

theorem F32.roundHalfEven_eq (x : ℚ) (n : ℤ) (h : |x - n| < 1 / 2) :
    F32.roundHalfEven x = n := by
  rw [abs_lt] at h
  obtain ⟨h1, h2⟩ := h
  unfold F32.roundHalfEven
  by_cases hn : (n : ℚ) ≤ x
  · have hf : ⌊x⌋ = n := by
      rw [Int.floor_eq_iff]
      constructor
      · exact hn
      · linarith
    rw [hf, if_pos (by linarith)]
  · have hf : ⌊x⌋ = n - 1 := by
      rw [Int.floor_eq_iff]
      push_cast
      constructor
      · linarith
      · push_neg at hn; linarith
    rw [hf]
    push_cast
    rw [if_neg (by linarith), if_pos (by linarith)]
    ring

theorem F32.ulpExp_eq (q : ℚ) (e : ℤ) (h1 : 2 ^ e ≤ |q|) (h2 : |q| < 2 ^ (e + 1))
    (h3 : -126 ≤ e) : F32.ulpExp q = e - 23 := by
  have hpos : (0 : ℚ) < |q| := lt_of_lt_of_le (by positivity) h1
  have hlog : Int.log 2 |q| = e := by
    apply le_antisymm
    · have := (Int.lt_zpow_iff_log_lt (b := 2) (by norm_num) hpos (x := e + 1)).mp
        (by exact_mod_cast h2)
      omega
    · exact (Int.zpow_le_iff_le_log (b := 2) (by norm_num) hpos).mp (by exact_mod_cast h1)
  unfold F32.ulpExp
  rw [hlog, max_eq_left h3]

/-- A value in the binade `[2^e, 2^(e+1))` rounds to the multiple `n * 2^(e-23)` of the unit
in the last place that lies within half a unit of it. -/
theorem F32.round_eq (q : ℚ) (e n : ℤ) (h1 : 2 ^ e ≤ |q|) (h2 : |q| < 2 ^ (e + 1))
    (h3 : -126 ≤ e) (hn : |q / 2 ^ (e - 23) - n| < 1 / 2) :
    F32.round q = n * 2 ^ (e - 23) := by
  unfold F32.round
  rw [F32.ulpExp_eq q e h1 h2 h3, F32.roundHalfEven_eq _ n hn]

theorem F32.round_zero : F32.round 0 = 0 := by
  simp [F32.round, F32.roundHalfEven]

/-- Integers below `2^24` in magnitude are binary32 values. -/
theorem F32.round_intCast (n : ℤ) (h : |n| < 2 ^ 24) : F32.round (n : ℚ) = n := by
  rcases eq_or_ne n 0 with rfl | hn
  · simpa using F32.round_zero
  have habs1 : (1 : ℚ) ≤ |(n : ℚ)| := by exact_mod_cast Int.one_le_abs hn
  have hpos : (0 : ℚ) < |(n : ℚ)| := by linarith
  have hlo : (2 : ℚ) ^ Int.log 2 |(n : ℚ)| ≤ |(n : ℚ)| := by
    simpa using Int.zpow_log_le_self (b := 2) (by norm_num) hpos
  have hhi : |(n : ℚ)| < (2 : ℚ) ^ (Int.log 2 |(n : ℚ)| + 1) := by
    simpa using Int.lt_zpow_succ_log_self (b := 2) (by norm_num) |(n : ℚ)|
  have he0 : 0 ≤ Int.log 2 |(n : ℚ)| :=
    (Int.zpow_le_iff_le_log (b := 2) (by norm_num) hpos).mp (by simpa using habs1)
  have h24 : |(n : ℚ)| < 16777216 := by
    have : ((|n| : ℤ) : ℚ) < ((2 ^ 24 : ℤ) : ℚ) := by exact_mod_cast h
    simpa using this
  have he23 : Int.log 2 |(n : ℚ)| < 24 := by
    apply (Int.lt_zpow_iff_log_lt (b := 2) (by norm_num) hpos).mp
    norm_num
    exact h24
  obtain ⟨k, hk⟩ : ∃ k : ℕ, (k : ℤ) = 23 - Int.log 2 |(n : ℚ)| :=
    ⟨(23 - Int.log 2 |(n : ℚ)|).toNat, Int.toNat_of_nonneg (by omega)⟩
  have hek : Int.log 2 |(n : ℚ)| - 23 = -(k : ℤ) := by omega
  have h2k : (2 : ℚ) ^ k ≠ 0 := by positivity
  rw [F32.round_eq n _ (n * 2 ^ k) hlo hhi (by omega)]
  · rw [hek, zpow_neg, zpow_natCast]
    push_cast
    field_simp
  · rw [hek, zpow_neg, zpow_natCast]
    push_cast
    have : (n : ℚ) / ((2 : ℚ) ^ k)⁻¹ - n * 2 ^ k = 0 := by field_simp
    rw [this]
    norm_num

theorem F32.round_one : F32.round 1 = 1 := by
  simpa using F32.round_intCast 1 (by norm_num)

theorem F32.round_ofNat (n : ℕ) [n.AtLeastTwo] (h : n < 2 ^ 24) :
    F32.round (OfNat.ofNat n) = OfNat.ofNat n := by
  have := F32.round_intCast (n : ℤ) (by rw [abs_of_nonneg (by positivity)]; exact_mod_cast h)
  simpa using this

theorem F32.round_neg_ofNat (n : ℕ) [n.AtLeastTwo] (h : n < 2 ^ 24) :
    F32.round (-OfNat.ofNat n) = -OfNat.ofNat n := by
  have := F32.round_intCast (-(n : ℤ))
    (by rw [abs_neg, abs_of_nonneg (by positivity)]; exact_mod_cast h)
  simpa using this

theorem F32.round_neg_one : F32.round (-1) = -1 := by
  simpa using F32.round_intCast (-1) (by norm_num)

/-- The value `0.1f` is a binary32 value. -/
theorem F32.round_tenth : F32.round tenth = tenth := by
  unfold tenth
  rw [F32.round_eq _ (-4) 13421773 (by norm_num [abs_of_pos]) (by norm_num [abs_of_pos])
    (by norm_num) (by norm_num)]
  norm_num

/-- The float difference `0.1f - 1000.0f`. -/
theorem F32.round_tenth_sub : F32.round (tenth - 1000) = -8191181 / 8192 := by
  unfold tenth
  rw [F32.round_eq _ 9 (-16382362) (by norm_num [abs_of_neg]) (by norm_num [abs_of_neg])
    (by norm_num) (by norm_num [abs_lt])]
  norm_num

theorem F32.round_tenth_sub_fixed : F32.round (-8191181 / 8192) = -8191181 / 8192 := by
  rw [F32.round_eq _ 9 (-16382362) (by norm_num [abs_of_neg]) (by norm_num [abs_of_neg])
    (by norm_num) (by norm_num [abs_lt])]
  norm_num

theorem F32.round_tenth_sub_fixed_neg :
    F32.round (-(8191181 / 8192)) = -(8191181 / 8192) := by
  have h := F32.round_tenth_sub_fixed
  rw [neg_div] at h
  exact h

/-! ## Hinge joint: `Start` -/

theorem ComHingeJoint.Start_physCalls (X : Externals) (e : JointEntity) (c : ComHingeJoint) :
    ∃ rest,
      (ComHingeJoint.Start X e c).physCalls
        = c.physCalls ++ PhysCall.CreateConstraint (ComHingeJoint.StartDesc X e c).1 :: rest ∧
      ∀ d, PhysCall.CreateConstraint d ∉ rest := by
  have hlog : (ComHingeJoint.StartDesc X e c).2.physCalls = c.physCalls := by
    unfold ComHingeJoint.StartDesc
    cases c.connectedBody <;> rfl
  apply Exists.intro
  refine And.intro ?_ ?_
  · simp only [ComHingeJoint.Start, hlog]
    exact rfl
  · intro d
    simp only [ComHingeJoint.StartMotor, ComHingeJoint.StartAddToWorld]
    split_ifs <;> simp

/-- C1 (amended): when the joint has a connected body B, `Start` makes exactly one
`CreateConstraint` call.  Its description has `anchorInA = scale * localAnchor`
(component-wise), `anchorInB = B.axis^T * ((A.origin + A.axis * anchorInA) - B.origin)` and
`axisInB = B.axis^T * (A.axis * localAxis)`, each evaluated in float arithmetic with every
product, sum and difference rounded, and the cached `connectedAnchor` / `connectedAxis`
equal that `anchorInB` / `axisInB`.  When B's axis matrix is orthonormal and the float
value of `anchorInB` (of `axisInB`) equals the exact value of its formula, then
`B.origin + B.axis * anchorInB = A.origin + A.axis * anchorInA`
(`B.axis * axisInB = A.axis * localAxis`). -/
theorem C1_Start_connected_frames (X : Externals) (e : JointEntity) (c : ComHingeJoint)
    (B : ComRigidBody) (hB : c.connectedBody = some B) :
    (∃ rest,
      (ComHingeJoint.Start X e c).physCalls
        = c.physCalls ++ PhysCall.CreateConstraint (ComHingeJoint.StartDesc X e c).1 :: rest ∧
      ∀ d, PhysCall.CreateConstraint d ∉ rest) ∧
    (ComHingeJoint.StartDesc X e c).1.bodyA = e.rigidBody.body ∧
    (ComHingeJoint.StartDesc X e c).1.bodyB = some B.body ∧
    (ComHingeJoint.StartDesc X e c).1.anchorInA
      = Vec3.mulF X.fl e.transform.scale c.localAnchor ∧
    (ComHingeJoint.StartDesc X e c).1.anchorInB
      = Mat3.TransposedMulVecF X.fl B.body.axis
          (Vec3.subF X.fl
            (Vec3.addF X.fl e.rigidBody.body.origin
              (Mat3.mulVecF X.fl e.rigidBody.body.axis
                (ComHingeJoint.StartDesc X e c).1.anchorInA))
            B.body.origin) ∧
    (ComHingeJoint.StartDesc X e c).1.axisInB
      = Mat3.TransposedMulF X.fl B.body.axis
          (Mat3.mulF X.fl e.rigidBody.body.axis c.localAxis) ∧
    (ComHingeJoint.Start X e c).connectedAnchor = (ComHingeJoint.StartDesc X e c).1.anchorInB ∧
    (ComHingeJoint.Start X e c).connectedAxis = (ComHingeJoint.StartDesc X e c).1.axisInB ∧
    (B.body.axis.IsOrthonormal →
      (ComHingeJoint.StartDesc X e c).1.anchorInB
        = B.body.axis.TransposedMulVec
            (e.rigidBody.body.origin
              + e.rigidBody.body.axis * (ComHingeJoint.StartDesc X e c).1.anchorInA
              - B.body.origin) →
      B.body.origin + B.body.axis * (ComHingeJoint.StartDesc X e c).1.anchorInB
        = e.rigidBody.body.origin
          + e.rigidBody.body.axis * (ComHingeJoint.StartDesc X e c).1.anchorInA) ∧
    (B.body.axis.IsOrthonormal →
      (ComHingeJoint.StartDesc X e c).1.axisInB
        = B.body.axis.TransposedMul (e.rigidBody.body.axis * c.localAxis) →
      B.body.axis * (ComHingeJoint.StartDesc X e c).1.axisInB
        = e.rigidBody.body.axis * c.localAxis) := by
  refine ⟨ComHingeJoint.Start_physCalls X e c, ?_, ?_, ?_, ?_, ?_, ?_, ?_, ?_, ?_⟩
  · simp only [ComHingeJoint.StartDesc, hB]
  · simp only [ComHingeJoint.StartDesc, hB]
  · simp only [ComHingeJoint.StartDesc, hB]
  · simp only [ComHingeJoint.StartDesc, hB]
  · simp only [ComHingeJoint.StartDesc, hB]
  · simp only [ComHingeJoint.Start, ComHingeJoint.StartDesc, hB]
  · simp only [ComHingeJoint.Start, ComHingeJoint.StartDesc, hB]
  · intro horth hexact
    rw [hexact, Mat3.mulVec_transposedMulVec _ horth, Vec3.add_sub_cancel_left]
  · intro horth hexact
    rw [hexact, Mat3.mul_transposedMul _ horth]

theorem Vec3.add_def (a b : Vec3) : a + b = Vec3.add a b := rfl

theorem Vec3.sub_def (a b : Vec3) : a - b = Vec3.sub a b := rfl

theorem Mat3.mulVec_def (m : Mat3) (v : Vec3) : m * v = Mat3.mulVec m v := rfl

theorem Mat3.mul_def (a b : Mat3) : a * b = Mat3.mul a b := rfl

theorem cycleAxes_isOrthonormal : cycleAxes.IsOrthonormal := by
  simp [Mat3.IsOrthonormal, cycleAxes, Mat3.TransposedMul, Mat3.TransposedMulVec, Vec3.Dot,
    Mat3.identity]

theorem sampleJoint_anchorInA :
    (ComHingeJoint.StartDesc sampleExternals sampleEntity sampleJoint).1.anchorInA
      = ⟨2, 6, 12⟩ := by
  have r2 : F32.round 2 = 2 := F32.round_ofNat 2 (by norm_num)
  have r6 : F32.round 6 = 6 := F32.round_ofNat 6 (by norm_num)
  have r12 : F32.round 12 = 12 := F32.round_ofNat 12 (by norm_num)
  norm_num [ComHingeJoint.StartDesc, sampleExternals, sampleEntity, sampleJoint,
    sampleTransform, Vec3.mulF, r2, r6, r12]

theorem sampleJoint_anchorInB :
    (ComHingeJoint.StartDesc sampleExternals sampleEntity sampleJoint).1.anchorInB
      = ⟨12, 4, -3⟩ := by
  have r2 : F32.round 2 = 2 := F32.round_ofNat 2 (by norm_num)
  have r4 : F32.round 4 = 4 := F32.round_ofNat 4 (by norm_num)
  have r6 : F32.round 6 = 6 := F32.round_ofNat 6 (by norm_num)
  have r12 : F32.round 12 = 12 := F32.round_ofNat 12 (by norm_num)
  have n3 : F32.round (-3) = -3 := F32.round_neg_ofNat 3 (by norm_num)
  have n6 : F32.round (-6) = -6 := F32.round_neg_ofNat 6 (by norm_num)
  norm_num [ComHingeJoint.StartDesc, sampleExternals, sampleEntity, sampleJoint,
    sampleTransform, sampleBodyA, sampleBodyB, quarterTurn, cycleAxes, Vec3.mulF, Vec3.addF,
    Vec3.subF, Vec3.DotF, Mat3.mulVecF, Mat3.TransposedMulVecF, F32.round_zero,
    r2, r4, r6, r12, n3, n6]

theorem sampleJoint_axisInB :
    (ComHingeJoint.StartDesc sampleExternals sampleEntity sampleJoint).1.axisInB
      = ⟨⟨0, 0, 1⟩, ⟨0, -1, 0⟩, ⟨1, 0, 0⟩⟩ := by
  norm_num [ComHingeJoint.StartDesc, sampleExternals, sampleEntity, sampleJoint,
    sampleTransform, sampleBodyA, sampleBodyB, quarterTurn, cycleAxes, Mat3.identity,
    Vec3.DotF, Mat3.mulVecF, Mat3.mulF, Mat3.TransposedMulVecF, Mat3.TransposedMulF,
    F32.round_zero, F32.round_one, F32.round_neg_one]

/-- On the sample joint the binary32 value of `anchorInB` is the exact value of its
formula. -/
theorem sampleJoint_anchorInB_exact :
    (ComHingeJoint.StartDesc sampleExternals sampleEntity sampleJoint).1.anchorInB
      = sampleBodyB.body.axis.TransposedMulVec
          (sampleEntity.rigidBody.body.origin
            + sampleEntity.rigidBody.body.axis
              * (ComHingeJoint.StartDesc sampleExternals sampleEntity sampleJoint).1.anchorInA
            - sampleBodyB.body.origin) := by
  rw [sampleJoint_anchorInB, sampleJoint_anchorInA]
  norm_num [sampleEntity, sampleBodyA, sampleBodyB, quarterTurn, cycleAxes, Vec3.add_def,
    Vec3.sub_def, Mat3.mulVec_def, Vec3.add, Vec3.sub, Mat3.mulVec, Mat3.TransposedMulVec,
    Vec3.Dot]

/-- On the sample joint the binary32 value of `axisInB` is the exact value of its formula. -/
theorem sampleJoint_axisInB_exact :
    (ComHingeJoint.StartDesc sampleExternals sampleEntity sampleJoint).1.axisInB
      = sampleBodyB.body.axis.TransposedMul
          (sampleEntity.rigidBody.body.axis * sampleJoint.localAxis) := by
  rw [sampleJoint_axisInB]
  norm_num [sampleEntity, sampleBodyA, sampleBodyB, sampleJoint, quarterTurn, cycleAxes,
    Mat3.identity, Mat3.mul_def, Mat3.mul, Mat3.mulVec, Mat3.TransposedMul,
    Mat3.TransposedMulVec, Vec3.Dot]

theorem C1_Start_connected_frames_witness :
    sampleExternals.fl = F32.round ∧
    sampleJoint.connectedBody = some sampleBodyB ∧
    sampleBodyB.body.axis.IsOrthonormal ∧
    (ComHingeJoint.StartDesc sampleExternals sampleEntity sampleJoint).1.anchorInB
      = sampleBodyB.body.axis.TransposedMulVec
          (sampleEntity.rigidBody.body.origin
            + sampleEntity.rigidBody.body.axis
              * (ComHingeJoint.StartDesc sampleExternals sampleEntity sampleJoint).1.anchorInA
            - sampleBodyB.body.origin) ∧
    sampleBodyB.body.origin
        + sampleBodyB.body.axis
          * (ComHingeJoint.StartDesc sampleExternals sampleEntity sampleJoint).1.anchorInB
      = sampleEntity.rigidBody.body.origin
        + sampleEntity.rigidBody.body.axis
          * (ComHingeJoint.StartDesc sampleExternals sampleEntity sampleJoint).1.anchorInA ∧
    (ComHingeJoint.StartDesc sampleExternals sampleEntity sampleJoint).1.axisInB
      = sampleBodyB.body.axis.TransposedMul
          (sampleEntity.rigidBody.body.axis * sampleJoint.localAxis) ∧
    sampleBodyB.body.axis
        * (ComHingeJoint.StartDesc sampleExternals sampleEntity sampleJoint).1.axisInB
      = sampleEntity.rigidBody.body.axis * sampleJoint.localAxis :=
  ⟨rfl, rfl, cycleAxes_isOrthonormal, sampleJoint_anchorInB_exact,
   (C1_Start_connected_frames sampleExternals sampleEntity sampleJoint sampleBodyB
      rfl).2.2.2.2.2.2.2.2.1 cycleAxes_isOrthonormal sampleJoint_anchorInB_exact,
   sampleJoint_axisInB_exact,
   (C1_Start_connected_frames sampleExternals sampleEntity sampleJoint sampleBodyB
      rfl).2.2.2.2.2.2.2.2.2 cycleAxes_isOrthonormal sampleJoint_axisInB_exact⟩

theorem F32.round_819 : F32.round (819 / 8192) = 819 / 8192 := by
  rw [F32.round_eq _ (-4) 13418496 (by norm_num [abs_of_pos]) (by norm_num [abs_of_pos])
    (by norm_num) (by norm_num)]
  norm_num

theorem tenthJoint_anchorInA :
    (ComHingeJoint.StartDesc sampleExternals originEntity tenthJoint).1.anchorInA
      = ⟨tenth, 0, 0⟩ := by
  simp [ComHingeJoint.StartDesc, sampleExternals, originEntity, tenthJoint, Vec3.mulF,
    F32.round_zero, F32.round_tenth]

theorem tenthJoint_anchorInB :
    (ComHingeJoint.StartDesc sampleExternals originEntity tenthJoint).1.anchorInB
      = ⟨-8191181 / 8192, 0, 0⟩ := by
  simp [ComHingeJoint.StartDesc, sampleExternals, originEntity, tenthJoint, farBody,
    Mat3.identity, Vec3.origin, Vec3.mulF, Vec3.addF, Vec3.subF, Vec3.DotF, Mat3.mulVecF,
    Mat3.TransposedMulVecF, F32.round_zero, F32.round_tenth, F32.round_tenth_sub,
    F32.round_tenth_sub_fixed]

/-- C1 (counterexample): in binary32, with body A at the origin, body B at (1000, 0, 0),
identity axes (so B's axis matrix is orthonormal), unit scale and local anchor
(0.1f, 0, 0), `Start` hands over `anchorInA = (0.1f, 0, 0)` and
`anchorInB = (-8191181/8192, 0, 0)`, so that `B.origin + B.axis * anchorInB` is
(819/8192, 0, 0) while `A.origin + A.axis * anchorInA` is (0.1f, 0, 0): the description
that `Start` hands to `CreateConstraint` does not satisfy the first equality of the claim,
whether its two sides are evaluated exactly or in binary32. -/
theorem C1_frames_differ_in_binary32 :
    sampleExternals.fl = F32.round ∧
    tenthJoint.connectedBody = some farBody ∧
    farBody.body.axis.IsOrthonormal ∧
    F32.round tenth = tenth ∧
    (ComHingeJoint.StartDesc sampleExternals originEntity tenthJoint).1.anchorInA
      = ⟨tenth, 0, 0⟩ ∧
    (ComHingeJoint.StartDesc sampleExternals originEntity tenthJoint).1.anchorInB
      = ⟨-8191181 / 8192, 0, 0⟩ ∧
    farBody.body.origin
        + farBody.body.axis
          * (ComHingeJoint.StartDesc sampleExternals originEntity tenthJoint).1.anchorInB
      = ⟨819 / 8192, 0, 0⟩ ∧
    originEntity.rigidBody.body.origin
        + originEntity.rigidBody.body.axis
          * (ComHingeJoint.StartDesc sampleExternals originEntity tenthJoint).1.anchorInA
      = ⟨13421773 / 134217728, 0, 0⟩ ∧
    Vec3.addF F32.round farBody.body.origin
        (Mat3.mulVecF F32.round farBody.body.axis
          (ComHingeJoint.StartDesc sampleExternals originEntity tenthJoint).1.anchorInB)
      = ⟨819 / 8192, 0, 0⟩ ∧
    Vec3.addF F32.round originEntity.rigidBody.body.origin
        (Mat3.mulVecF F32.round originEntity.rigidBody.body.axis
          (ComHingeJoint.StartDesc sampleExternals originEntity tenthJoint).1.anchorInA)
      = ⟨13421773 / 134217728, 0, 0⟩ ∧
    ¬ ∃ desc rest,
      (ComHingeJoint.Start sampleExternals originEntity tenthJoint).physCalls
        = tenthJoint.physCalls ++ PhysCall.CreateConstraint desc :: rest ∧
      farBody.body.origin + farBody.body.axis * desc.anchorInB
        = originEntity.rigidBody.body.origin
          + originEntity.rigidBody.body.axis * desc.anchorInA := by
  have hA := tenthJoint_anchorInA
  have hB := tenthJoint_anchorInB
  refine ⟨rfl, rfl, ?_, F32.round_tenth, hA, hB, ?_, ?_, ?_, ?_, ?_⟩
  · simp [Mat3.IsOrthonormal, farBody, Mat3.TransposedMul, Mat3.TransposedMulVec, Vec3.Dot,
      Mat3.identity]
  · rw [hB]
    norm_num [farBody, Mat3.identity, Vec3.add_def, Mat3.mulVec_def, Vec3.add, Mat3.mulVec]
  · rw [hA]
    norm_num [originEntity, Mat3.identity, Vec3.origin, Vec3.add_def, Mat3.mulVec_def,
      Vec3.add, Mat3.mulVec, tenth]
  · rw [hB]
    norm_num [farBody, Mat3.identity, Vec3.addF, Mat3.mulVecF, F32.round_zero,
      F32.round_tenth_sub_fixed_neg, F32.round_819]
  · rw [hA]
    simp [originEntity, Mat3.identity, Vec3.origin, Vec3.addF, Mat3.mulVecF, F32.round_zero,
      F32.round_tenth]
    rfl
  · rintro ⟨desc, rest, hlog, heq⟩
    obtain ⟨rest2, hlog2, -⟩ :=
      ComHingeJoint.Start_physCalls sampleExternals originEntity tenthJoint
    rw [hlog2] at hlog
    have hd : (ComHingeJoint.StartDesc sampleExternals originEntity tenthJoint).1 = desc := by
      have := List.append_cancel_left hlog
      simpa using (List.cons.inj this).1
    rw [← hd, hA, hB] at heq
    norm_num [farBody, originEntity, Mat3.identity, Vec3.origin, Vec3.add_def,
      Mat3.mulVec_def, Vec3.add, Mat3.mulVec, tenth] at heq

/-! ## Hinge joint: cached state and live constraint stay in step -/

theorem ComHingeJoint.limitsSynced_Start (X : Externals) (e : JointEntity) (c : ComHingeJoint) :
    (ComHingeJoint.Start X e c).LimitsSynced X := by
  unfold ComHingeJoint.LimitsSynced ComHingeJoint.Start
  simp only [ComHingeJoint.StartMotor, ComHingeJoint.StartAddToWorld]
  refine ⟨_, rfl, ?_⟩
  split_ifs <;>
    simp [PhysHingeConstraint.AddToWorld, PhysHingeConstraint.EnableMotor,
      PhysHingeConstraint.SetMotor, PhysHingeConstraint.EnableLimitAngles,
      PhysHingeConstraint.SetLimitAngles]

theorem ComHingeJoint.limitsSynced_call (X : Externals) (c : ComHingeJoint) (op : HingeSetter)
    (hc : c.LimitsSynced X) : (c.call X op).LimitsSynced X := by
  obtain ⟨h, hh, h1, h2, h3⟩ := hc
  cases op <;>
    simp [ComHingeJoint.call, ComHingeJoint.LimitsSynced, ComHingeJoint.SetLocalAnchor,
      ComHingeJoint.SetLocalAngles, ComHingeJoint.SetConnectedAnchor,
      ComHingeJoint.SetConnectedAngles, ComHingeJoint.SetEnableLimitAngles,
      ComHingeJoint.SetMinimumAngle, ComHingeJoint.SetMaximumAngle,
      ComHingeJoint.SetMotorTargetVelocity, ComHingeJoint.SetMaxMotorImpulse, hh, h1, h2, h3,
      PhysHingeConstraint.SetFrameA, PhysHingeConstraint.SetFrameB,
      PhysHingeConstraint.SetAnchorB, PhysHingeConstraint.EnableMotor,
      PhysHingeConstraint.SetMotor, PhysHingeConstraint.EnableLimitAngles,
      PhysHingeConstraint.SetLimitAngles]

theorem ComHingeJoint.limitsSynced_callAll (X : Externals) (ops : List HingeSetter) :
    ∀ c : ComHingeJoint, c.LimitsSynced X → (c.callAll X ops).LimitsSynced X := by
  induction ops with
  | nil => intro c hc; exact hc
  | cons op ops ih =>
    intro c hc
    exact ih (c.call X op) (ComHingeJoint.limitsSynced_call X c op hc)

/-- C2: after `Start` followed by any sequence of hinge-joint setter calls, the live
constraint's limit angles are `(DEG2RAD(minimumAngle), DEG2RAD(maximumAngle))` of the cached
angles and its limit-enabled flag equals the cached `enableLimitAngles`. -/
theorem C2_limits_follow_cache (X : Externals) (e : JointEntity) (c : ComHingeJoint)
    (ops : List HingeSetter) :
    ∃ h, ((ComHingeJoint.Start X e c).callAll X ops).constraint = some h ∧
      h.lowerLimit = X.DEG2RAD ((ComHingeJoint.Start X e c).callAll X ops).minimumAngle ∧
      h.upperLimit = X.DEG2RAD ((ComHingeJoint.Start X e c).callAll X ops).maximumAngle ∧
      h.limitEnabled = ((ComHingeJoint.Start X e c).callAll X ops).enableLimitAngles :=
  ComHingeJoint.limitsSynced_callAll X ops _ (ComHingeJoint.limitsSynced_Start X e c)

theorem ComHingeJoint.motorSynced_Start (X : Externals) (e : JointEntity) (c : ComHingeJoint)
    (hfresh : ∀ d, (X.CreateConstraint d).motorEnabled = false) :
    (ComHingeJoint.Start X e c).MotorSynced X := by
  unfold ComHingeJoint.MotorSynced ComHingeJoint.Start
  simp only [ComHingeJoint.StartMotor, ComHingeJoint.StartAddToWorld]
  refine ⟨_, rfl, ?_⟩
  split_ifs <;>
    simp_all [PhysHingeConstraint.AddToWorld, PhysHingeConstraint.EnableMotor,
      PhysHingeConstraint.SetMotor, PhysHingeConstraint.EnableLimitAngles,
      PhysHingeConstraint.SetLimitAngles]

theorem ComHingeJoint.motorSynced_call (X : Externals) (c : ComHingeJoint) (op : HingeSetter)
    (hc : c.MotorSynced X) : (c.call X op).MotorSynced X := by
  obtain ⟨h, hh, h1, h2⟩ := hc
  cases op <;>
    simp [ComHingeJoint.call, ComHingeJoint.MotorSynced, ComHingeJoint.SetLocalAnchor,
      ComHingeJoint.SetLocalAngles, ComHingeJoint.SetConnectedAnchor,
      ComHingeJoint.SetConnectedAngles, ComHingeJoint.SetEnableLimitAngles,
      ComHingeJoint.SetMinimumAngle, ComHingeJoint.SetMaximumAngle,
      ComHingeJoint.SetMotorTargetVelocity, ComHingeJoint.SetMaxMotorImpulse, hh,
      PhysHingeConstraint.SetFrameA, PhysHingeConstraint.SetFrameB,
      PhysHingeConstraint.SetAnchorB, PhysHingeConstraint.EnableMotor,
      PhysHingeConstraint.SetMotor, PhysHingeConstraint.EnableLimitAngles,
      PhysHingeConstraint.SetLimitAngles] <;>
    exact ⟨h1, h2⟩

theorem ComHingeJoint.motorSynced_callAll (X : Externals) (ops : List HingeSetter) :
    ∀ c : ComHingeJoint, c.MotorSynced X → (c.callAll X ops).MotorSynced X := by
  induction ops with
  | nil => intro c hc; exact hc
  | cons op ops ih =>
    intro c hc
    exact ih (c.call X op) (ComHingeJoint.motorSynced_call X c op hc)

/-- C3: if a freshly created constraint has its motor disabled, then after `Start` followed
by any sequence of hinge-joint setter calls the constraint's motor is enabled exactly when
the cached `motorTargetVelocity` is non-zero, and when enabled its target velocity is
`DEG2RAD(motorTargetVelocity)` and its maximum impulse is the cached `maxMotorImpulse`. -/
theorem C3_motor_follows_cache (X : Externals) (e : JointEntity) (c : ComHingeJoint)
    (ops : List HingeSetter) (hfresh : ∀ d, (X.CreateConstraint d).motorEnabled = false) :
    ∃ h, ((ComHingeJoint.Start X e c).callAll X ops).constraint = some h ∧
      (h.motorEnabled = true ↔
        ((ComHingeJoint.Start X e c).callAll X ops).motorTargetVelocity ≠ 0) ∧
      (h.motorEnabled = true →
        h.motorTargetVelocity
          = X.DEG2RAD ((ComHingeJoint.Start X e c).callAll X ops).motorTargetVelocity ∧
        h.maxMotorImpulse = ((ComHingeJoint.Start X e c).callAll X ops).maxMotorImpulse) :=
  ComHingeJoint.motorSynced_callAll X ops _ (ComHingeJoint.motorSynced_Start X e c hfresh)

theorem C3_motor_follows_cache_witness :
    (∀ d, (sampleExternals.CreateConstraint d).motorEnabled = false) ∧
    ∃ h, ((ComHingeJoint.Start sampleExternals sampleEntity sampleJoint).callAll
        sampleExternals sampleSetters).constraint = some h ∧
      (h.motorEnabled = true ↔
        ((ComHingeJoint.Start sampleExternals sampleEntity sampleJoint).callAll
          sampleExternals sampleSetters).motorTargetVelocity ≠ 0) ∧
      (h.motorEnabled = true →
        h.motorTargetVelocity
          = sampleExternals.DEG2RAD
              ((ComHingeJoint.Start sampleExternals sampleEntity sampleJoint).callAll
                sampleExternals sampleSetters).motorTargetVelocity ∧
        h.maxMotorImpulse
          = ((ComHingeJoint.Start sampleExternals sampleEntity sampleJoint).callAll
              sampleExternals sampleSetters).maxMotorImpulse) :=
  ⟨fun _ => rfl,
   C3_motor_follows_cache sampleExternals sampleEntity sampleJoint sampleSetters
     (fun _ => rfl)⟩

/-! ## Hinge joint: setters before `Start` -/

/-- C4: for a hinge joint with no constraint yet, each of `SetLocalAnchor`,
`SetConnectedAnchor`, `SetEnableLimitAngles`, `SetMinimumAngle`, `SetMaximumAngle`,
`SetMotorTargetVelocity` and `SetMaxMotorImpulse` changes only its own cached field, makes
no call into the physics API, and the matching getter returns exactly the value that was
set, whatever that value is. -/
theorem C4_setters_without_constraint (X : Externals) (c : ComHingeJoint)
    (hc : c.constraint = none) (v : Vec3) (b : Bool) (a : ℚ) :
    (c.SetLocalAnchor v = { c with localAnchor := v } ∧
      (c.SetLocalAnchor v).physCalls = c.physCalls ∧
      (c.SetLocalAnchor v).GetLocalAnchor = v) ∧
    (c.SetConnectedAnchor v = { c with connectedAnchor := v } ∧
      (c.SetConnectedAnchor v).physCalls = c.physCalls ∧
      (c.SetConnectedAnchor v).GetConnectedAnchor = v) ∧
    (c.SetEnableLimitAngles b = { c with enableLimitAngles := b } ∧
      (c.SetEnableLimitAngles b).physCalls = c.physCalls ∧
      (c.SetEnableLimitAngles b).GetEnableLimitAngles = b) ∧
    (c.SetMinimumAngle X a = { c with minimumAngle := a } ∧
      (c.SetMinimumAngle X a).physCalls = c.physCalls ∧
      (c.SetMinimumAngle X a).GetMinimumAngle = a) ∧
    (c.SetMaximumAngle X a = { c with maximumAngle := a } ∧
      (c.SetMaximumAngle X a).physCalls = c.physCalls ∧
      (c.SetMaximumAngle X a).GetMaximumAngle = a) ∧
    (c.SetMotorTargetVelocity X a = { c with motorTargetVelocity := a } ∧
      (c.SetMotorTargetVelocity X a).physCalls = c.physCalls ∧
      (c.SetMotorTargetVelocity X a).GetMotorTargetVelocity = a) ∧
    (c.SetMaxMotorImpulse X a = { c with maxMotorImpulse := a } ∧
      (c.SetMaxMotorImpulse X a).physCalls = c.physCalls ∧
      (c.SetMaxMotorImpulse X a).GetMaxMotorImpulse = a) := by
  simp [ComHingeJoint.SetLocalAnchor, ComHingeJoint.SetConnectedAnchor,
    ComHingeJoint.SetEnableLimitAngles, ComHingeJoint.SetMinimumAngle,
    ComHingeJoint.SetMaximumAngle, ComHingeJoint.SetMotorTargetVelocity,
    ComHingeJoint.SetMaxMotorImpulse, ComHingeJoint.GetLocalAnchor,
    ComHingeJoint.GetConnectedAnchor, ComHingeJoint.GetEnableLimitAngles,
    ComHingeJoint.GetMinimumAngle, ComHingeJoint.GetMaximumAngle,
    ComHingeJoint.GetMotorTargetVelocity, ComHingeJoint.GetMaxMotorImpulse, hc]

theorem C4_setters_without_constraint_witness :
    sampleJoint.constraint = none ∧
    (sampleJoint.SetMinimumAngle sampleExternals (-1000)
        = { sampleJoint with minimumAngle := -1000 } ∧
      (sampleJoint.SetMinimumAngle sampleExternals (-1000)).physCalls = sampleJoint.physCalls ∧
      (sampleJoint.SetMinimumAngle sampleExternals (-1000)).GetMinimumAngle = -1000) :=
  ⟨rfl,
   (C4_setters_without_constraint sampleExternals sampleJoint rfl ⟨7, 8, 9⟩ true
      (-1000)).2.2.2.1⟩

/-! ## Hinge joint: `SetLocalAnchor` against `Start` -/

/-- C9 (evaluation of the code): on a started joint whose entity has scale (2, 3, 4),
`SetLocalAnchor (1, 1, 1)` hands the live constraint the anchor (1, 1, 1) through
`SetFrameA`, whereas `Start` for the same local anchor hands over
`anchorInA = (2, 3, 4)`, the component-wise product with the scale. -/
theorem C9_SetLocalAnchor_skips_scale :
    sampleEntity.transform.scale = ⟨2, 3, 4⟩ ∧
    ((ComHingeJoint.Start sampleExternals sampleEntity sampleJoint).SetLocalAnchor
        ⟨1, 1, 1⟩).physCalls
      = (ComHingeJoint.Start sampleExternals sampleEntity sampleJoint).physCalls ++
          [PhysCall.SetFrameA ⟨1, 1, 1⟩ Mat3.identity] ∧
    (((ComHingeJoint.Start sampleExternals sampleEntity sampleJoint).SetLocalAnchor
        ⟨1, 1, 1⟩).constraint.map fun h => h.anchorInA) = some ⟨1, 1, 1⟩ ∧
    (ComHingeJoint.StartDesc sampleExternals sampleEntity
        { sampleJoint with localAnchor := ⟨1, 1, 1⟩ }).1.anchorInA = ⟨2, 3, 4⟩ ∧
    (⟨1, 1, 1⟩ : Vec3) ≠ ⟨2, 3, 4⟩ := by
  refine ⟨rfl, ?_, ?_, ?_, ?_⟩
  · simp [ComHingeJoint.SetLocalAnchor, ComHingeJoint.Start, sampleJoint,
      ComHingeJoint.StartDesc]
  · simp [ComHingeJoint.SetLocalAnchor, ComHingeJoint.Start, PhysHingeConstraint.SetFrameA]
  · have r2 : F32.round 2 = 2 := F32.round_ofNat 2 (by norm_num)
    have r3 : F32.round 3 = 3 := F32.round_ofNat 3 (by norm_num)
    have r4 : F32.round 4 = 4 := F32.round_ofNat 4 (by norm_num)
    simp [ComHingeJoint.StartDesc, Vec3.mulF, sampleExternals, sampleEntity, sampleTransform,
      sampleJoint, r2, r3, r4]
  · simp

/-! ## Cylinder collider -/

theorem Vec2.maxComponent_eq_max (v : Vec2) : v.MaxComponent = max v.x v.y := by
  unfold Vec2.MaxComponent
  split_ifs with h
  · exact (max_eq_left (le_of_lt h)).symm
  · exact (max_eq_right (not_lt.mp h)).symm

/-- C5: `CreateCollider` leaves the component holding a cylinder whose centre is the
component-wise product of the entity scale and the cached center, whose height is
`scale.z * height` and whose radius is `max (scale.x * radius) (scale.y * radius)`; for
every `radius >= 0` that radius equals `radius * max scale.x scale.y`. -/
theorem C5_CreateCollider_cylinder (t : ComTransform) (c : ComCylinderCollider) :
    (c.CreateCollider t).collider.bind Collider.cylinder
      = some ⟨t.scale * c.center,
          max (t.scale.x * c.radius) (t.scale.y * c.radius), t.scale.z * c.height⟩ ∧
    (0 ≤ c.radius →
      max (t.scale.x * c.radius) (t.scale.y * c.radius)
        = c.radius * max t.scale.x t.scale.y) := by
  refine ⟨?_, ?_⟩
  · simp only [ComCylinderCollider.CreateCollider, Collider.CreateCylinder,
      Vec2.maxComponent_eq_max, Option.some_bind]
    rfl
  · intro hr
    rw [mul_comm t.scale.x, mul_comm t.scale.y, mul_max_of_nonneg _ _ hr]

theorem C5_CreateCollider_cylinder_witness :
    (0 : ℚ) ≤ sampleColliderInit.radius ∧
    max (sampleTransform.scale.x * sampleColliderInit.radius)
        (sampleTransform.scale.y * sampleColliderInit.radius)
      = sampleColliderInit.radius * max sampleTransform.scale.x sampleTransform.scale.y :=
  ⟨by decide,
   (C5_CreateCollider_cylinder sampleTransform sampleColliderInit).2 (by decide)⟩

theorem ComCylinderCollider.CreateCollider_cylinder (t : ComTransform)
    (c : ComCylinderCollider) :
    (c.CreateCollider t).collider.bind Collider.cylinder
      = some ⟨t.scale * c.center,
          max (t.scale.x * c.radius) (t.scale.y * c.radius), t.scale.z * c.height⟩ := by
  simp only [ComCylinderCollider.CreateCollider, Collider.CreateCylinder,
    Vec2.maxComponent_eq_max, Option.some_bind]
  rfl

/-- C6: `SetCenter`, `SetRadius` and `SetHeight` always store the new value (and leave the
other two cached fields alone); on a component that is not initialized nothing else changes
(no collider is allocated, released or created); on an initialized component the collider
held afterwards is the cylinder built from all three current cached fields and the current
entity scale. -/
theorem C6_setters_rebuild_collider (t : ComTransform) (c : ComCylinderCollider) (v : Vec3)
    (r h : ℚ) :
    ((c.SetCenter t v).center = v ∧ (c.SetCenter t v).radius = c.radius ∧
      (c.SetCenter t v).height = c.height) ∧
    ((c.SetRadius t r).center = c.center ∧ (c.SetRadius t r).radius = r ∧
      (c.SetRadius t r).height = c.height) ∧
    ((c.SetHeight t h).center = c.center ∧ (c.SetHeight t h).radius = c.radius ∧
      (c.SetHeight t h).height = h) ∧
    (c.IsInitialized = false →
      c.SetCenter t v = { c with center := v } ∧
      c.SetRadius t r = { c with radius := r } ∧
      c.SetHeight t h = { c with height := h }) ∧
    (c.IsInitialized = true →
      (c.SetCenter t v).collider.bind Collider.cylinder
        = some ⟨t.scale * v,
            max (t.scale.x * c.radius) (t.scale.y * c.radius), t.scale.z * c.height⟩ ∧
      (c.SetRadius t r).collider.bind Collider.cylinder
        = some ⟨t.scale * c.center,
            max (t.scale.x * r) (t.scale.y * r), t.scale.z * c.height⟩ ∧
      (c.SetHeight t h).collider.bind Collider.cylinder
        = some ⟨t.scale * c.center,
            max (t.scale.x * c.radius) (t.scale.y * c.radius), t.scale.z * h⟩) := by
  refine ⟨?_, ?_, ?_, ?_, ?_⟩
  · cases hi : c.initialized <;>
      simp [ComCylinderCollider.SetCenter, ComCylinderCollider.IsInitialized,
        ComCylinderCollider.CreateCollider, hi]
  · cases hi : c.initialized <;>
      simp [ComCylinderCollider.SetRadius, ComCylinderCollider.IsInitialized,
        ComCylinderCollider.CreateCollider, hi]
  · cases hi : c.initialized <;>
      simp [ComCylinderCollider.SetHeight, ComCylinderCollider.IsInitialized,
        ComCylinderCollider.CreateCollider, hi]
  · intro hi
    simp only [ComCylinderCollider.IsInitialized] at hi
    simp [ComCylinderCollider.SetCenter, ComCylinderCollider.SetRadius,
      ComCylinderCollider.SetHeight, ComCylinderCollider.IsInitialized, hi]
  · intro hi
    simp only [ComCylinderCollider.IsInitialized] at hi
    refine ⟨?_, ?_, ?_⟩
    · simp only [ComCylinderCollider.SetCenter, ComCylinderCollider.IsInitialized, hi, if_true]
      exact ComCylinderCollider.CreateCollider_cylinder t _
    · simp only [ComCylinderCollider.SetRadius, ComCylinderCollider.IsInitialized, hi, if_true]
      exact ComCylinderCollider.CreateCollider_cylinder t _
    · simp only [ComCylinderCollider.SetHeight, ComCylinderCollider.IsInitialized, hi, if_true]
      exact ComCylinderCollider.CreateCollider_cylinder t _

theorem C6_setters_rebuild_collider_witness :
    (sampleCollider.IsInitialized = false ∧
      sampleCollider.SetRadius sampleTransform 7 = { sampleCollider with radius := 7 }) ∧
    (sampleColliderInit.IsInitialized = true ∧
      (sampleColliderInit.SetRadius sampleTransform 7).collider.bind Collider.cylinder
        = some ⟨sampleTransform.scale * sampleColliderInit.center,
            max (sampleTransform.scale.x * 7) (sampleTransform.scale.y * 7),
            sampleTransform.scale.z * sampleColliderInit.height⟩) :=
  ⟨⟨rfl,
    ((C6_setters_rebuild_collider sampleTransform sampleCollider ⟨0, 0, 0⟩ 7 3).2.2.2.1
      rfl).2.1⟩,
   ⟨rfl,
    ((C6_setters_rebuild_collider sampleTransform sampleColliderInit ⟨0, 0, 0⟩ 7 3).2.2.2.2
      rfl).2.1⟩⟩

/-- C7: `RayIntersection` returns false for every start point, direction and
`backFaceCull` flag, and leaves the `lastScale` in/out parameter and the component as they
were. -/
theorem C7_RayIntersection_always_false (c : ComCylinderCollider) (start dir : Vec3)
    (backFaceCull : Bool) (lastScale : ℚ) :
    c.RayIntersection start dir backFaceCull lastScale = (false, lastScale, c) :=
  rfl

/-! ## Gizmos -/

/-- C8: the hinge joint's `DrawGizmos` makes debug-draw calls exactly when the squared
distance between the entity origin and the scene-view origin is strictly below `20000^2`,
whatever `selected` is; it then draws one arrow, and an arc and a line exactly when
`enableLimitAngles` is set.  The cylinder collider's `DrawGizmos` makes debug-draw calls
exactly when `selected` is true and that squared distance is strictly below `20000^2`, and
then draws exactly one cylinder. -/
theorem C8_gizmos_distance_gate (X : Externals) (e : JointEntity) (sceneView : SceneViewParms)
    (selected : Bool) (c : ComHingeJoint) (t : ComTransform) (cc : ComCylinderCollider) :
    (c.DrawGizmos X e sceneView selected ≠ [] ↔
      e.transform.origin.DistanceSqr sceneView.origin < 20000 ^ 2) ∧
    c.DrawGizmos X e sceneView true = c.DrawGizmos X e sceneView false ∧
    ((c.DrawGizmos X e sceneView selected).countP DebugDraw.isArrow
      = if e.transform.origin.DistanceSqr sceneView.origin < 20000 ^ 2 then 1 else 0) ∧
    ((c.DrawGizmos X e sceneView selected).countP DebugDraw.isArc
      = if e.transform.origin.DistanceSqr sceneView.origin < 20000 ^ 2
          ∧ c.enableLimitAngles = true then 1 else 0) ∧
    ((c.DrawGizmos X e sceneView selected).countP DebugDraw.isLine
      = if e.transform.origin.DistanceSqr sceneView.origin < 20000 ^ 2
          ∧ c.enableLimitAngles = true then 1 else 0) ∧
    (cc.DrawGizmos t sceneView selected ≠ [] ↔
      selected = true ∧ t.origin.DistanceSqr sceneView.origin < 20000 ^ 2) ∧
    ((cc.DrawGizmos t sceneView selected).countP DebugDraw.isCylinder
      = if selected = true ∧ t.origin.DistanceSqr sceneView.origin < 20000 ^ 2
          then 1 else 0) := by
  have h2 : (20000 : ℚ) ^ 2 = 20000 * 20000 := by norm_num
  rw [h2]
  refine ⟨?_, rfl, ?_, ?_, ?_, ?_, ?_⟩
  · by_cases hd : e.transform.origin.DistanceSqr sceneView.origin < 20000 * 20000 <;>
      simp [ComHingeJoint.DrawGizmos, hd]
  · by_cases hd : e.transform.origin.DistanceSqr sceneView.origin < 20000 * 20000 <;>
      cases hl : c.enableLimitAngles <;>
      simp [ComHingeJoint.DrawGizmos, hd, hl, List.countP_cons, DebugDraw.isArrow]
  · by_cases hd : e.transform.origin.DistanceSqr sceneView.origin < 20000 * 20000 <;>
      cases hl : c.enableLimitAngles <;>
      simp [ComHingeJoint.DrawGizmos, hd, hl, List.countP_cons, DebugDraw.isArc]
  · by_cases hd : e.transform.origin.DistanceSqr sceneView.origin < 20000 * 20000 <;>
      cases hl : c.enableLimitAngles <;>
      simp [ComHingeJoint.DrawGizmos, hd, hl, List.countP_cons, DebugDraw.isLine]
  · by_cases hd : t.origin.DistanceSqr sceneView.origin < 20000 * 20000 <;>
      cases selected <;>
      simp [ComCylinderCollider.DrawGizmos, hd]
  · by_cases hd : t.origin.DistanceSqr sceneView.origin < 20000 * 20000 <;>
      cases selected <;>
      simp [ComCylinderCollider.DrawGizmos, hd, List.countP_cons, DebugDraw.isCylinder]

/-! ## Cylinder collider: allocations and releases -/

theorem liveColliders_append (es : List ColliderEvent) (e : ColliderEvent) :
    liveColliders (es ++ [e]) = replayEvent (liveColliders es) e := by
  simp [liveColliders, List.foldl_append]

theorem allocCount_append (es : List ColliderEvent) (e : ColliderEvent) :
    allocCount (es ++ [e]) = allocCount es + allocCount [e] := by
  simp [allocCount, List.countP_append]

theorem releaseCount_append (es : List ColliderEvent) (e : ColliderEvent) :
    releaseCount (es ++ [e]) = releaseCount es + releaseCount [e] := by
  simp [releaseCount, List.countP_append]

/-- What one `CreateCollider` does to the manager log and to the held collider. -/
theorem ComCylinderCollider.CreateCollider_events (t : ComTransform)
    (c : ComCylinderCollider) :
    (c.CreateCollider t).colliderManager.events
      = c.colliderManager.events ++ c.held.map ColliderEvent.Release ++
          [ColliderEvent.Alloc c.colliderManager.nextId] ∧
    (c.CreateCollider t).held = [c.colliderManager.nextId] := by
  unfold ComCylinderCollider.CreateCollider ComCylinderCollider.held
  cases c.collider <;>
    simp [ColliderManager.AllocUnnamedCollider, ColliderManager.ReleaseCollider,
      Collider.CreateCylinder]

theorem ComCylinderCollider.balanced_CreateCollider (base : List ColliderEvent)
    (t : ComTransform) (c : ComCylinderCollider) (hc : c.BalancedSince base) :
    (c.CreateCollider t).BalancedSince base := by
  obtain ⟨hev, hheld⟩ := ComCylinderCollider.CreateCollider_events t c
  obtain ⟨new, hnew, hlive, hcount⟩ := hc
  refine ⟨new ++ c.held.map ColliderEvent.Release ++
    [ColliderEvent.Alloc c.colliderManager.nextId], ?_, ?_, ?_⟩
  · rw [hev, hnew]
    simp only [List.append_assoc]
  · rw [hheld]
    unfold ComCylinderCollider.held at hlive ⊢
    cases hcol : c.collider with
    | none =>
      rw [hcol] at hlive
      simp only [List.map_nil, List.append_nil, liveColliders_append, hlive]
      simp [replayEvent]
    | some col =>
      rw [hcol] at hlive
      simp only [List.map_cons, List.map_nil, liveColliders_append, hlive]
      simp [replayEvent]
  · rw [hheld]
    unfold ComCylinderCollider.held at hcount ⊢
    cases hcol : c.collider with
    | none =>
      rw [hcol] at hcount
      simp only [List.length_nil, Nat.add_zero] at hcount
      simp only [List.map_nil, List.append_nil, allocCount_append, releaseCount_append,
        hcount]
      simp [allocCount, releaseCount]
    | some col =>
      rw [hcol] at hcount
      simp only [List.length_singleton] at hcount
      simp only [List.map_cons, List.map_nil, allocCount_append, releaseCount_append, hcount]
      simp [allocCount, releaseCount]

theorem ComCylinderCollider.balanced_call (base : List ColliderEvent)
    (c : ComCylinderCollider) (op : ColliderOp) (hc : c.BalancedSince base) :
    (c.call op).BalancedSince base := by
  cases op with
  | CreateCollider t => exact ComCylinderCollider.balanced_CreateCollider base t c hc
  | SetCenter t v =>
    simp only [ComCylinderCollider.call, ComCylinderCollider.SetCenter]
    split_ifs
    · exact ComCylinderCollider.balanced_CreateCollider base t _ hc
    · exact hc
  | SetRadius t r =>
    simp only [ComCylinderCollider.call, ComCylinderCollider.SetRadius]
    split_ifs
    · exact ComCylinderCollider.balanced_CreateCollider base t _ hc
    · exact hc
  | SetHeight t h =>
    simp only [ComCylinderCollider.call, ComCylinderCollider.SetHeight]
    split_ifs
    · exact ComCylinderCollider.balanced_CreateCollider base t _ hc
    · exact hc

theorem ComCylinderCollider.balanced_callAll (base : List ColliderEvent)
    (ops : List ColliderOp) :
    ∀ c : ComCylinderCollider, c.BalancedSince base → (c.callAll ops).BalancedSince base := by
  induction ops with
  | nil => intro c hc; exact hc
  | cons op ops ih =>
    intro c hc
    exact ih (c.call op) (ComCylinderCollider.balanced_call base c op hc)

/-- C10: on a component that starts with no collider, after any sequence of
`CreateCollider`, `SetCenter`, `SetRadius` and `SetHeight` calls the events the sequence
added to the manager log replay without ever releasing a collider that is not live, the
live colliders are exactly the one the component holds (if any), and allocations exceed
releases by 1 when the component holds a collider and by 0 when it does not.  Each single
`CreateCollider` appends one release of the previously held collider (if any) followed by
one allocation. -/
theorem C10_colliders_never_leak (c : ComCylinderCollider) (ops : List ColliderOp)
    (hnone : c.collider = none) :
    (∃ new, (c.callAll ops).colliderManager.events = c.colliderManager.events ++ new ∧
      liveColliders new = some (c.callAll ops).held ∧
      allocCount new
        = releaseCount new + (if (c.callAll ops).collider.isSome then 1 else 0)) ∧
    (∀ (t : ComTransform) (d : ComCylinderCollider),
      (d.CreateCollider t).colliderManager.events
        = d.colliderManager.events ++ d.held.map ColliderEvent.Release ++
            [ColliderEvent.Alloc d.colliderManager.nextId] ∧
      (d.CreateCollider t).held = [d.colliderManager.nextId]) := by
  have h0 : c.BalancedSince c.colliderManager.events := by
    refine ⟨[], by simp, ?_, ?_⟩
    · unfold ComCylinderCollider.held
      rw [hnone]
      rfl
    · unfold ComCylinderCollider.held
      rw [hnone]
      rfl
  obtain ⟨new, hnew, hlive, hcount⟩ :=
    ComCylinderCollider.balanced_callAll c.colliderManager.events ops c h0
  refine ⟨⟨new, hnew, hlive, ?_⟩, ComCylinderCollider.CreateCollider_events⟩
  rw [hcount]
  unfold ComCylinderCollider.held
  cases (c.callAll ops).collider <;> simp

theorem C10_colliders_never_leak_witness :
    sampleColliderInit.collider = none ∧
    ∃ new, (sampleColliderInit.callAll sampleColliderOps).colliderManager.events
        = sampleColliderInit.colliderManager.events ++ new ∧
      liveColliders new = some (sampleColliderInit.callAll sampleColliderOps).held ∧
      allocCount new
        = releaseCount new
            + (if (sampleColliderInit.callAll sampleColliderOps).collider.isSome
                then 1 else 0) :=
  ⟨rfl, (C10_colliders_never_leak sampleColliderInit sampleColliderOps rfl).1⟩

end BE
